import Mathlib

/-!
# Node bootstrapper kubeconfig reconciliation

A shallow embedding of

* `control-plane-operator/controllers/hostedcontrolplane/manifests/nodebootstrapper.go`
* `control-plane-operator/controllers/hostedcontrolplane/nodebootstrapper/kubeconfig.go`

Go values are modelled as follows.

* A Go `string` is a byte sequence (`GoString`); `string(b)` on a byte slice keeps the bytes.
* A Go `[]byte` is `Bytes`: `none` is the nil slice, `some l` a non-nil slice with content `l`.
* A Go `map[string]V` is `GoMap V`: `none` is the nil map, `some l` an association list
  read through its first matching entry.
* A function that mutates its pointer argument and returns `error` returns the mutated
  value together with `Option GoError` (`none` is the nil error).
* Code that talks to a cluster runs in `Pass`: explicit passing of a `World` holding the object
  store of the management cluster, the object store of the hosted cluster and the log of
  the calls made so far.
-/

namespace NodeBootstrapper

/-! ## Go values -/

/-- A Go `string`: an immutable sequence of bytes. -/
abbrev GoString := List UInt8

/-- A string literal of the source. Every literal of the two files is ASCII, so each
character is one byte. -/
def lit (s : String) : GoString := s.data.map (fun c => UInt8.ofNat c.toNat)

/-- A Go `[]byte`; `none` is the nil slice. -/
abbrev Bytes := Option (List UInt8)

/-- The bytes held by a slice; the nil slice holds none. -/
def Bytes.content (b : Bytes) : List UInt8 := b.getD []

/-- The conversion `string(b)` of a byte slice. -/
def stringOfBytes (b : Bytes) : GoString := b.content

/-- The verb `%d` of package fmt applied to an integer. -/
def fmtInt : Int → GoString
  | Int.ofNat n => (Nat.toDigits 10 n).map (fun c => UInt8.ofNat c.toNat)
  | Int.negSucc n => lit "-" ++ (Nat.toDigits 10 (n + 1)).map (fun c => UInt8.ofNat c.toNat)

/-- The verb `%q` of package fmt applied to a string. Only resource names reach it, and
those hold no character that `%q` escapes, so the string is put between double quotes. -/
def fmtQuote (s : GoString) : GoString := lit "\"" ++ s ++ lit "\""

/-- First entry of an association list stored under key `k`. -/
def assocGet {V : Type} (k : GoString) : List (GoString × V) → Option V
  | [] => none
  | (k1, v1) :: rest => if k1 = k then some v1 else assocGet k rest

/-- Store `v` under `k`: overwrite the entry of `k` if there is one, add an entry otherwise. -/
def assocSet {V : Type} (k : GoString) (v : V) : List (GoString × V) → List (GoString × V)
  | [] => [(k, v)]
  | (k1, v1) :: rest => if k1 = k then (k, v) :: rest else (k1, v1) :: assocSet k v rest

/-- A Go `map[string]V`; `none` is the nil map. -/
abbrev GoMap (V : Type) := Option (List (GoString × V))

/-- The entries of a map; a nil map has none. -/
def GoMap.entries {V : Type} (m : GoMap V) : List (GoString × V) := m.getD []

/-- The two-valued index expression `v, ok := m[k]`: `none` when `ok` is false. -/
def GoMap.index {V : Type} (m : GoMap V) (k : GoString) : Option V := assocGet k m.entries

/-- The index expression `m[k]` on a `map[string][]byte`: the nil slice when `k` is absent. -/
def GoMap.at (m : GoMap Bytes) (k : GoString) : Bytes := (m.index k).join

/-- The errors this package sees. `new` is an error without a cause (`errors.New`, or
`fmt.Errorf` that wrapped nothing), `wrap` is what `fmt.Errorf` builds for a non-nil `%w`
operand, `notFound` is an API status error with reason NotFound, and `refused` is an API
status error with another reason (Forbidden, Invalid, ...). -/
inductive GoError where
  | new (msg : GoString)
  | wrap (msg : GoString) (cause : GoError)
  | notFound (msg : GoString)
  | refused (msg : GoString)
  deriving DecidableEq, Repr

/-- The method `Error()`. -/
def GoError.Error : GoError → GoString
  | .new msg => msg
  | .wrap msg _ => msg
  | .notFound msg => msg
  | .refused msg => msg

/-- The method `Unwrap()`, nil for an error without a cause. -/
def GoError.Unwrap : GoError → Option GoError
  | .wrap _ cause => some cause
  | _ => none

/-- The call `fmt.Errorf(format, ...)` for a format without `%w`; `msg` is the formatted text. -/
def Errorf (msg : GoString) : GoError := .new msg

/-- The call `fmt.Errorf(format + ": %w", ..., err)`; `pre` is the formatted text up to and
including the colon and blank. A nil operand is printed as `%!w(<nil>)` and nothing is
wrapped. -/
def ErrorfW (pre : GoString) : Option GoError → GoError
  | some err => .wrap (pre ++ err.Error) err
  | none => .new (pre ++ lit "%!w(<nil>)")

/-- The predicate `apierrors.IsNotFound`. -/
def IsNotFound : GoError → Bool
  | .notFound _ => true
  | _ => false

/-! ## Kubernetes objects -/

/-- The part of `metav1.ObjectMeta` this package reads or writes. -/
structure ObjectMeta where
  Name : GoString := []
  Namespace : GoString := []
  Labels : GoMap GoString := none
  Annotations : GoMap GoString := none
  deriving DecidableEq

/-- The type `corev1.Secret`; `Type_` is its field `Type`. -/
structure Secret extends ObjectMeta where
  Data : GoMap Bytes := none
  Type_ : GoString := []
  deriving DecidableEq

/-- The type `corev1.ServiceAccount`. -/
structure ServiceAccount extends ObjectMeta where
  deriving DecidableEq

/-- The type `corev1.Namespace`. -/
structure Namespace extends ObjectMeta where
  deriving DecidableEq

/-- The type `rbacv1.ClusterRole`. -/
structure ClusterRole extends ObjectMeta where
  deriving DecidableEq

/-- The type `rbacv1.RoleRef`. -/
structure RoleRef where
  APIGroup : GoString := []
  Kind : GoString := []
  Name : GoString := []
  deriving DecidableEq

/-- The type `rbacv1.Subject`. -/
structure Subject where
  Kind : GoString := []
  APIGroup : GoString := []
  Name : GoString := []
  Namespace : GoString := []
  deriving DecidableEq

/-- The type `rbacv1.ClusterRoleBinding`. A nil and an empty subject slice are both the
empty list; the package never tells them apart. -/
structure ClusterRoleBinding extends ObjectMeta where
  Subjects : List Subject := []
  RoleRef : RoleRef := {}
  deriving DecidableEq

/-- The constant `corev1.ServiceAccountRootCAKey`. -/
def ServiceAccountRootCAKey : GoString := lit "ca.crt"

/-- The constant `corev1.ServiceAccountTokenKey`. -/
def ServiceAccountTokenKey : GoString := lit "token"

/-- The constant `corev1.SecretTypeServiceAccountToken`. -/
def SecretTypeServiceAccountToken : GoString := lit "kubernetes.io/service-account-token"

/-! ## Client configuration document (`clientcmd/api/v1`) -/

/-- The fields of `clientcmdv1.Cluster` the package sets. -/
structure Cluster where
  Server : GoString := []
  CertificateAuthorityData : Bytes := none
  deriving DecidableEq

/-- The type `clientcmdv1.NamedCluster`. -/
structure NamedCluster where
  Name : GoString
  Cluster : Cluster
  deriving DecidableEq

/-- The fields of `clientcmdv1.AuthInfo` the package sets. -/
structure AuthInfo where
  Token : GoString := []
  deriving DecidableEq

/-- The type `clientcmdv1.NamedAuthInfo`. -/
structure NamedAuthInfo where
  Name : GoString
  AuthInfo : AuthInfo
  deriving DecidableEq

/-- The fields of `clientcmdv1.Context` the package sets. -/
structure Context where
  Cluster : GoString := []
  AuthInfo : GoString := []
  deriving DecidableEq

/-- The type `clientcmdv1.NamedContext`. -/
structure NamedContext where
  Name : GoString
  Context : Context
  deriving DecidableEq

/-- The type `clientcmdv1.Config`. -/
structure Config where
  Clusters : List NamedCluster := []
  AuthInfos : List NamedAuthInfo := []
  Contexts : List NamedContext := []
  CurrentContext : GoString := []
  deriving DecidableEq

/-! ## manifests/nodebootstrapper.go -/

/-- The constructor `manifests.BootstrapServiceAccount`. -/
def BootstrapServiceAccount (ns : GoString) : ServiceAccount :=
  { Namespace := ns, Name := lit "node-bootstrapper" }

/-- The constructor `manifests.BootstrapClusterRole`. -/
def BootstrapClusterRole : ClusterRole :=
  { Name := lit "system:node-bootstrapper" }

/-- The constructor `manifests.BootstrapClusterRoleBinding`. -/
def BootstrapClusterRoleBinding : ClusterRoleBinding :=
  { Name := lit "system:node-bootstrapper" }

/-- The constructor `manifests.BootstrapKubeconfigSecret`. -/
def BootstrapKubeconfigSecret (ns : GoString) : Secret :=
  { Name := lit "bootstrap-kubeconfig", Namespace := ns }

/-- The constructor `manifests.BootstrapServicAccountTokenSecret`. -/
def BootstrapServicAccountTokenSecret (ns : GoString) : Secret :=
  { Name := lit "node-bootstrapper-token", Namespace := ns }

/-- The constructor `manifests.BootstrapMachineConfigNamespace`. -/
def BootstrapMachineConfigNamespace (ns : GoString) : Namespace :=
  { Name := ns }

/-! ## nodebootstrapper/kubeconfig.go: constants and pure functions -/

/-- The constant `KubeconfigKey`. -/
def KubeconfigKey : GoString := lit "kubeconfig"

/-- The constant `machineConfigOperatorNamespace`. -/
def machineConfigOperatorNamespace : GoString := lit "openshift-machine-config-operator"

/-- The function `reconcileBootstrapClusterRoleBinding` (kubeconfig.go, lines 130-145): the
binding after the call and the returned error. -/
def reconcileBootstrapClusterRoleBinding (binding : ClusterRoleBinding) (role : ClusterRole)
    (sa : ServiceAccount) : ClusterRoleBinding × Option GoError :=
  let binding := { binding with
    RoleRef := { APIGroup := lit "rbac.authorization.k8s.io", Kind := lit "ClusterRole",
                 Name := role.Name } }
  let binding := { binding with
    Subjects := [{ Kind := lit "ServiceAccount", Name := sa.Name, Namespace := sa.Namespace }] }
  (binding, none)

/-- The function `reconcileBootstrapKubeconfigSecret` (kubeconfig.go, lines 147-161): the
secret after the call and the returned error. -/
def reconcileBootstrapKubeconfigSecret (secret : Secret) (kcData : Bytes) (key : GoString) :
    Secret × Option GoError :=
  let secret := if secret.Data = none then { secret with Data := some [] } else secret
  let key := if key = lit "" then lit "kubeconfig" else key
  let secret := if secret.Labels = none then { secret with Labels := some [] } else secret
  let secret := { secret with
    Labels := some (assocSet (lit "hypershift.openshift.io/kubeconfig") (lit "bootstrap")
      secret.Labels.entries) }
  let secret := { secret with Data := some (assocSet key kcData secret.Data.entries) }
  (secret, none)

/-- The composite literal assigned to the local variable `kubeconfig` of
`kubeconfigFromSecret` (kubeconfig.go, lines 164-189): the document before serialization. -/
def kubeconfigFromSecret.kubeconfig (secret : Secret) (apiserverURL : GoString) : Config :=
  let caData := secret.Data.at ServiceAccountRootCAKey
  let token := secret.Data.at ServiceAccountTokenKey
  { Clusters := [{ Name := lit "local",
                   Cluster := { Server := apiserverURL, CertificateAuthorityData := caData } }],
    AuthInfos := [{ Name := lit "kubelet", AuthInfo := { Token := stringOfBytes token } }],
    Contexts := [{ Name := lit "kubelet",
                   Context := { Cluster := lit "local", AuthInfo := lit "kubelet" } }],
    CurrentContext := lit "kubelet" }

/-- The function `kubeconfigFromSecret` (kubeconfig.go, lines 163-195). The serializer
`yaml.Marshal` is the parameter `Marshal`; on success it yields a non-nil slice. The three
components are the three returned values. -/
def kubeconfigFromSecret (Marshal : Config → Except GoError (List UInt8)) (secret : Secret)
    (apiserverURL : GoString) : Bytes × Bytes × Option GoError :=
  let caData := secret.Data.at ServiceAccountRootCAKey
  match Marshal (kubeconfigFromSecret.kubeconfig secret apiserverURL) with
  | .error err => (none, none, some err)
  | .ok kcData => (some kcData, caData, none)

/-- The function literal passed to `CreateOrPatch` for the token secret (kubeconfig.go,
lines 90-97): the secret after the call and the returned error. -/
def tokenSecretMutate (sa : ServiceAccount) (tokenSecret : Secret) : Secret × Option GoError :=
  let tokenSecret :=
    if tokenSecret.Annotations = none then { tokenSecret with Annotations := some [] }
    else tokenSecret
  let tokenSecret := { tokenSecret with
    Annotations := some (assocSet (lit "kubernetes.io/service-account.name") sa.Name
      tokenSecret.Annotations.entries) }
  let tokenSecret := { tokenSecret with Type_ := SecretTypeServiceAccountToken }
  (tokenSecret, none)

/-! ## The two clusters -/

/-- The two API endpoints a pass talks to. -/
inductive ClusterId where
  | management
  | hosted
  deriving DecidableEq, Repr

/-- The client verbs the package uses. -/
inductive Verb where
  | get
  | create
  | update
  | patch
  deriving DecidableEq, Repr

/-- The kinds of object the package reads or writes. -/
inductive ResourceKind where
  | ns
  | serviceAccount
  | clusterRoleBinding
  | secret
  deriving DecidableEq, Repr

/-- The type `client.ObjectKey`. -/
structure ObjectKey where
  Namespace : GoString
  Name : GoString
  deriving DecidableEq, Repr

/-- What a pass does that is visible from outside: a client call on one of the clusters,
the construction of the hosted cluster client, a run of `kubeconfigFromSecret`. -/
inductive Event where
  | call (cluster : ClusterId) (verb : Verb) (kind : ResourceKind) (key : ObjectKey)
  | newClient
  | assemble
  deriving DecidableEq, Repr

/-- The objects an API server holds, per kind and key. -/
structure Store where
  namespaces : ObjectKey → Option Namespace
  serviceAccounts : ObjectKey → Option ServiceAccount
  clusterRoleBindings : ObjectKey → Option ClusterRoleBinding
  secrets : ObjectKey → Option Secret

/-- The state a pass runs in. Only the pass writes to the stores while it runs: what other
controllers do to the clusters, such as the hosted cluster filling in the token secret,
happens between passes. -/
structure World where
  management : Store
  hosted : Store
  events : List Event

/-- The store of a cluster. -/
def World.store (w : World) : ClusterId → Store
  | .management => w.management
  | .hosted => w.hosted

/-- Replace the store of a cluster. -/
def World.setStore (w : World) (c : ClusterId) (s : Store) : World :=
  match c with
  | .management => { w with management := s }
  | .hosted => { w with hosted := s }

/-- Append an event to the log. -/
def World.log (w : World) (e : Event) : World :=
  { w with events := w.events ++ [e] }

/-- A computation of a pass: it returns a value or an error, and the world it leaves. -/
abbrev Pass (α : Type) := World → Except GoError α × World

/-- Equality of byte slices as `equality.Semantic.DeepEqual` sees it: a nil and an empty
slice are equal. -/
def bytesSemEq (a b : Bytes) : Bool := decide (a.content = b.content)

/-- Equality of maps as `equality.Semantic.DeepEqual` sees it: a nil and an empty map are
equal, otherwise the same keys with equal values. -/
def mapSemEq {V : Type} (veq : V → V → Bool) (a b : GoMap V) : Bool :=
  (a.entries.map Prod.fst ++ b.entries.map Prod.fst).all fun k =>
    match assocGet k a.entries, assocGet k b.entries with
    | some x, some y => veq x y
    | none, none => true
    | _, _ => false

/-- Semantic equality of object metadata. -/
def ObjectMeta.semEq (a b : ObjectMeta) : Bool :=
  decide (a.Name = b.Name) && decide (a.Namespace = b.Namespace)
    && mapSemEq (fun x y => decide (x = y)) a.Labels b.Labels
    && mapSemEq (fun x y => decide (x = y)) a.Annotations b.Annotations

/-- Semantic equality of secrets. -/
def Secret.semEq (a b : Secret) : Bool :=
  a.toObjectMeta.semEq b.toObjectMeta && mapSemEq bytesSemEq a.Data b.Data
    && decide (a.Type_ = b.Type_)

/-- Semantic equality of cluster role bindings. -/
def ClusterRoleBinding.semEq (a b : ClusterRoleBinding) : Bool :=
  a.toObjectMeta.semEq b.toObjectMeta && decide (a.Subjects = b.Subjects)
    && decide (a.RoleRef = b.RoleRef)

/-- How objects of one Go type are kept by an API server: `read` is the object served
under a key (it carries the name and namespace of that key), `write` stores an object
under its own name and namespace. -/
structure Resource (α : Type) where
  kind : ResourceKind
  meta : α → ObjectMeta
  read : Store → ObjectKey → Option α
  write : Store → α → Store
  semEq : α → α → Bool

/-- The function `client.ObjectKeyFromObject`. -/
def Resource.key {α : Type} (R : Resource α) (obj : α) : ObjectKey :=
  { Namespace := (R.meta obj).Namespace, Name := (R.meta obj).Name }

/-- Namespaces. -/
def namespaceResource : Resource Namespace where
  kind := .ns
  meta := fun o => o.toObjectMeta
  read := fun st k =>
    (st.namespaces k).map fun o => { o with Name := k.Name, Namespace := k.Namespace }
  write := fun st o =>
    { st with namespaces := fun k =>
        if k = { Namespace := o.Namespace, Name := o.Name } then some o else st.namespaces k }
  semEq := fun a b => a.toObjectMeta.semEq b.toObjectMeta

/-- Service accounts. -/
def serviceAccountResource : Resource ServiceAccount where
  kind := .serviceAccount
  meta := fun o => o.toObjectMeta
  read := fun st k =>
    (st.serviceAccounts k).map fun o => { o with Name := k.Name, Namespace := k.Namespace }
  write := fun st o =>
    { st with serviceAccounts := fun k =>
        if k = { Namespace := o.Namespace, Name := o.Name } then some o
        else st.serviceAccounts k }
  semEq := fun a b => a.toObjectMeta.semEq b.toObjectMeta

/-- Cluster role bindings. -/
def clusterRoleBindingResource : Resource ClusterRoleBinding where
  kind := .clusterRoleBinding
  meta := fun o => o.toObjectMeta
  read := fun st k =>
    (st.clusterRoleBindings k).map fun o =>
      { o with Name := k.Name, Namespace := k.Namespace }
  write := fun st o =>
    { st with clusterRoleBindings := fun k =>
        if k = { Namespace := o.Namespace, Name := o.Name } then some o
        else st.clusterRoleBindings k }
  semEq := ClusterRoleBinding.semEq

/-- Secrets. -/
def secretResource : Resource Secret where
  kind := .secret
  meta := fun o => o.toObjectMeta
  read := fun st k =>
    (st.secrets k).map fun o => { o with Name := k.Name, Namespace := k.Namespace }
  write := fun st o =>
    { st with secrets := fun k =>
        if k = { Namespace := o.Namespace, Name := o.Name } then some o else st.secrets k }
  semEq := Secret.semEq

/-- The type `clientcmdapi.Config`, the parsed admin kubeconfig. The package only hands it
on, so it is a handle. -/
structure ApiConfig where
  handle : Nat
  deriving DecidableEq, Repr

/-- The type `rest.Config`. The package only hands it on, so it is a handle. -/
structure RestConfig where
  handle : Nat
  deriving DecidableEq, Repr

/-- The library functions the package calls and the behaviour of the API servers that
the package does not decide.

* `Load` is `clientcmd.Load`; `.ok none` is the result `(nil, nil)`.
* `ClientConfig` is `clientcmd.NewDefaultClientConfig(config, overrides).ClientConfig()`.
* `New` is `client.New`; on success the client talks to the hosted cluster.
* `Marshal` is `yaml.Marshal`.
* `deny` is the message of an API server that refuses a call whatever its store holds
  (authorization, admission); `none` lets the call through. Whether an object is found is
  decided by the store, so a refusal is never a NotFound error. -/
structure Env where
  Load : Bytes → Except GoError (Option ApiConfig)
  ClientConfig : ApiConfig → Except GoError RestConfig
  New : RestConfig → Option GoError
  Marshal : Config → Except GoError (List UInt8)
  deny : ClusterId → Verb → ResourceKind → ObjectKey → Option GoString

/-- The error of a `Get` on a key the store does not hold. -/
def notFoundError (key : ObjectKey) : GoError :=
  .notFound (fmtQuote key.Name ++ lit " not found")

/-- The error of a `Create` on a key the store already holds. -/
def alreadyExistsError (key : ObjectKey) : GoError :=
  .new (fmtQuote key.Name ++ lit " already exists")

/-- The method `Get` of `client.Client`. -/
def Client.Get {α : Type} (env : Env) (R : Resource α) (c : ClusterId) (key : ObjectKey) :
    Pass α := fun w =>
  let w := w.log (.call c .get R.kind key)
  match env.deny c .get R.kind key with
  | some msg => (.error (.refused msg), w)
  | none =>
  match R.read (w.store c) key with
  | none => (.error (notFoundError key), w)
  | some obj => (.ok obj, w)

/-- The method `Create` of `client.Client`. -/
def Client.Create {α : Type} (env : Env) (R : Resource α) (c : ClusterId) (obj : α) :
    Pass Unit := fun w =>
  let w := w.log (.call c .create R.kind (R.key obj))
  match env.deny c .create R.kind (R.key obj) with
  | some msg => (.error (.refused msg), w)
  | none =>
  match R.read (w.store c) (R.key obj) with
  | some _ => (.error (alreadyExistsError (R.key obj)), w)
  | none => (.ok (), w.setStore c (R.write (w.store c) obj))

/-- The methods `Update` and `Patch` of `client.Client`, told apart by `verb`. A pass is
the only writer between its `Get` and its write, so the object the merge patch is applied
to is the one the patch was computed from, and both verbs leave `obj` in the store. -/
def Client.Write {α : Type} (env : Env) (R : Resource α) (verb : Verb) (c : ClusterId)
    (obj : α) : Pass Unit := fun w =>
  let w := w.log (.call c verb R.kind (R.key obj))
  match env.deny c verb R.kind (R.key obj) with
  | some msg => (.error (.refused msg), w)
  | none =>
  match R.read (w.store c) (R.key obj) with
  | none => (.error (notFoundError (R.key obj)), w)
  | some _ => (.ok (), w.setStore c (R.write (w.store c) obj))

/-- The function `mutate` of package controllerutil: run the mutate function and refuse a
changed name or namespace. -/
def mutate {α : Type} (R : Resource α) (f : α → α × Option GoError) (key : ObjectKey)
    (obj : α) : Except GoError α :=
  match f obj with
  | (_, some err) => .error err
  | (obj, none) =>
  if key ≠ R.key obj then
    .error (Errorf (lit "MutateFn cannot mutate object name and/or object namespace"))
  else .ok obj

/-- The common body of `controllerutil.CreateOrUpdate` and `controllerutil.CreateOrPatch`:
fetch the object; when it is not found, mutate the given object and create it; otherwise
mutate the fetched object and write it with `verb` unless the mutation changed nothing.
`CreateOrUpdate` compares with `equality.Semantic.DeepEqual`, `CreateOrPatch` compares the
unstructured forms, which drop empty maps as well; both are `R.semEq` here. The separate
status patch of `CreateOrPatch` is left out: no mutation of this package touches a status.
The returned value is the object the caller holds afterwards; the `OperationResult` is
dropped, as every caller does. -/
def createOrWrite {α : Type} (env : Env) (R : Resource α) (verb : Verb) (c : ClusterId)
    (obj : α) (f : α → α × Option GoError) : Pass α := fun w =>
  let key := R.key obj
  match Client.Get env R c key w with
  | (.error err, w) =>
    if !IsNotFound err then (.error err, w) else
    match mutate R f key obj with
    | .error err => (.error err, w)
    | .ok obj =>
    match Client.Create env R c obj w with
    | (.error err, w) => (.error err, w)
    | (.ok _, w) => (.ok obj, w)
  | (.ok existing, w) =>
    match mutate R f key existing with
    | .error err => (.error err, w)
    | .ok obj =>
    if R.semEq existing obj then (.ok obj, w) else
    match Client.Write env R verb c obj w with
    | (.error err, w) => (.error err, w)
    | (.ok _, w) => (.ok obj, w)

/-- The function `controllerutil.CreateOrUpdate`. -/
def CreateOrUpdate {α : Type} (env : Env) (R : Resource α) (c : ClusterId) (obj : α)
    (f : α → α × Option GoError) : Pass α :=
  createOrWrite env R .update c obj f

/-- The function `controllerutil.CreateOrPatch`. -/
def CreateOrPatch {α : Type} (env : Env) (R : Resource α) (c : ClusterId) (obj : α)
    (f : α → α × Option GoError) : Pass α :=
  createOrWrite env R .patch c obj f

/-! ## The hosted control plane -/

/-- Modelled from the spec: the type `hyperv1.KubeconfigSecretRef` of package
`api/v1alpha1`, which is not among the source files; the reference to the admin
kubeconfig secret. -/
structure KubeconfigSecretRef where
  Name : GoString
  Key : GoString
  deriving DecidableEq

/-- Modelled from the spec: the type `hyperv1.APIEndpoint` of package `api/v1alpha1`,
which is not among the source files; the connection endpoint, a host and a port. -/
structure APIEndpoint where
  Host : GoString
  Port : Int
  deriving DecidableEq

/-- Modelled from the spec: the type `hyperv1.HostedControlPlaneStatus` of package
`api/v1alpha1`, which is not among the source files; a reference to the admin kubeconfig
secret, nil until it exists, and the connection endpoint. -/
structure HostedControlPlaneStatus where
  KubeConfig : Option KubeconfigSecretRef
  ControlPlaneEndpoint : APIEndpoint
  deriving DecidableEq

/-- Modelled from the spec: the type `hyperv1.HostedControlPlane` of package
`api/v1alpha1`, which is not among the source files; object metadata and the status. -/
structure HostedControlPlane extends ObjectMeta where
  Status : HostedControlPlaneStatus
  deriving DecidableEq

/-! ## ReconcileBootstrapKubeconfig -/

/-- The value of the local variable `apiServerURL` of `ReconcileBootstrapKubeconfig`
(kubeconfig.go, line 113): `fmt.Sprintf("https://%s:%d", host, port)`. -/
def ReconcileBootstrapKubeconfig.apiServerURL (endpoint : APIEndpoint) : GoString :=
  lit "https://" ++ endpoint.Host ++ lit ":" ++ fmtInt endpoint.Port

/-- The function `ReconcileBootstrapKubeconfig` (kubeconfig.go, lines 30-128). The
management client is the store `ClusterId.management` of the world, the client built at
line 62 is the store `ClusterId.hosted`. `.ok ()` is the nil error. -/
def ReconcileBootstrapKubeconfig (env : Env) (hcp : HostedControlPlane) : Pass Unit := fun w =>
  -- lines 31-33
  if hcp.Status.KubeConfig = none then
    (.error (Errorf (lit "hosted controlplane kubeconfig secret is not generated")), w)
  else
  -- lines 35-44
  let kubeconfigSecret : Secret :=
    { Namespace := hcp.Namespace, Name := lit "service-network-admin-kubeconfig" }
  match Client.Get env secretResource .management (secretResource.key kubeconfigSecret) w with
  | (.error err, w) =>
    (.error (ErrorfW (lit "failed to get hosted controlplane kubeconfig secret "
      ++ fmtQuote kubeconfigSecret.Name ++ lit ": ") (some err)), w)
  | (.ok kubeconfigSecret, w) =>
  -- lines 47-57
  let loaded : Except GoError (Option ApiConfig) :=
    match kubeconfigSecret.Data.index KubeconfigKey with
    | some kubeconfig => env.Load kubeconfig
    | none => .ok none
  match loaded with
  | .error err => (.error err, w)
  | .ok none =>
    (.error (ErrorfW (lit "failed to load hosted controlplane kubeconfig from secret "
      ++ fmtQuote kubeconfigSecret.Name ++ lit ": ") none), w)
  | .ok (some config) =>
  -- lines 58-65
  match env.ClientConfig config with
  | .error err =>
    (.error (ErrorfW (lit "failed to create hosted controlplane client from secret "
      ++ fmtQuote kubeconfigSecret.Name ++ lit ": ") (some err)), w)
  | .ok clientConfig =>
  let w := w.log .newClient
  match env.New clientConfig with
  | some err =>
    (.error (ErrorfW (lit "failed to create hosted controlplane client: ") (some err)), w)
  | none =>
  let hostedClusterClient := ClusterId.hosted
  -- lines 67-71
  let ns := BootstrapMachineConfigNamespace machineConfigOperatorNamespace
  match CreateOrUpdate env namespaceResource hostedClusterClient ns (fun o => (o, none)) w with
  | (.error err, w) =>
    (.error (ErrorfW (lit "failed to reconcile machine-config-operator namespace: ")
      (some err)), w)
  | (.ok _, w) =>
  -- lines 74-78
  let sa := BootstrapServiceAccount machineConfigOperatorNamespace
  match CreateOrUpdate env serviceAccountResource hostedClusterClient sa
      (fun o => (o, none)) w with
  | (.error err, w) =>
    (.error (ErrorfW (lit "failed to reconcile node bootstrapper service account: ")
      (some err)), w)
  | (.ok sa, w) =>
  -- lines 81-87
  let rolebinding := BootstrapClusterRoleBinding
  match CreateOrUpdate env clusterRoleBindingResource hostedClusterClient rolebinding
      (fun rolebinding =>
        reconcileBootstrapClusterRoleBinding rolebinding BootstrapClusterRole sa) w with
  | (.error err, w) =>
    (.error (ErrorfW (lit "failed to reconcile bootstrapper role binding: ") (some err)), w)
  | (.ok _, w) =>
  -- lines 89-100
  let tokenSecret := BootstrapServicAccountTokenSecret machineConfigOperatorNamespace
  match CreateOrPatch env secretResource hostedClusterClient tokenSecret
      (tokenSecretMutate sa) w with
  | (.error err, w) =>
    (.error (ErrorfW (lit "failed to reconcile bootstrapper service account token secret: ")
      (some err)), w)
  | (.ok tokenSecret, w) =>
  -- lines 103-106
  match Client.Get env secretResource hostedClusterClient (secretResource.key tokenSecret) w with
  | (.error err, w) =>
    (.error (ErrorfW (lit "failed to get bootstrapper service account token secret "
      ++ fmtQuote tokenSecret.Name ++ lit ": ") (some err)), w)
  | (.ok tokenSecret, w) =>
  -- lines 107-109
  if tokenSecret.Data.at ServiceAccountRootCAKey = none
      ∨ tokenSecret.Data.at ServiceAccountTokenKey = none then
    (.error (ErrorfW (lit "failed to get bootstrapper service account token from secret "
      ++ fmtQuote tokenSecret.Name ++ lit ": ") none), w)
  else
  -- lines 110-112
  if hcp.Status.ControlPlaneEndpoint.Host = lit "" then
    (.error (Errorf (lit "failed to get apiserver url from hcp.Status.ControlPlaneEndpoint: "
      ++ hcp.Status.ControlPlaneEndpoint.Host)), w)
  else
  -- line 113
  let apiServerURL := ReconcileBootstrapKubeconfig.apiServerURL hcp.Status.ControlPlaneEndpoint
  -- lines 115-118
  let w := w.log .assemble
  match kubeconfigFromSecret env.Marshal tokenSecret apiServerURL with
  | (_, _, some err) =>
    (.error (ErrorfW (lit "failed to generate kubeconfig from secret "
      ++ fmtQuote tokenSecret.Name ++ lit ": ") (some err)), w)
  | (kcData, _, none) =>
  -- lines 120-127
  let bootstrapKubeconfigSecret := BootstrapKubeconfigSecret hcp.Namespace
  match CreateOrUpdate env secretResource .management bootstrapKubeconfigSecret
      (fun bootstrapKubeconfigSecret =>
        reconcileBootstrapKubeconfigSecret bootstrapKubeconfigSecret kcData KubeconfigKey) w with
  | (.error err, w) =>
    (.error (ErrorfW (lit "failed to reconcile bootstrapper kubeconfig "
      ++ fmtQuote bootstrapKubeconfigSecret.Name ++ lit ": ") (some err)), w)
  | (.ok _, w) => (.ok (), w)

/-! ## Auxiliary notions for the statements -/

/-- Equality of results is decidable. -/
instance instDecidableEqExcept {ε α : Type} [DecidableEq ε] [DecidableEq α] :
    DecidableEq (Except ε α)
  | .ok a, .ok b =>
    if h : a = b then isTrue (by rw [h]) else isFalse (by intro h1; cases h1; exact h rfl)
  | .error a, .error b =>
    if h : a = b then isTrue (by rw [h]) else isFalse (by intro h1; cases h1; exact h rfl)
  | .ok _, .error _ => isFalse (by intro h; cases h)
  | .error _, .ok _ => isFalse (by intro h; cases h)

/-- What the statements need of a resource: an object is served under its own key, a write
is visible under the key of the written object and nowhere else, and an object is
semantically equal to itself. -/
structure Resource.Lawful {α : Type} (R : Resource α) : Prop where
  key_read : ∀ st k o, R.read st k = some o → R.key o = k
  read_write : ∀ st o k, R.read (R.write st o) k = if k = R.key o then some o else R.read st k
  semEq_refl : ∀ o, R.semEq o o = true

/-- An event that is neither a run of `kubeconfigFromSecret` nor a create, update or patch
on the management cluster. -/
def Event.quiet : Event → Bool
  | .assemble => false
  | .call .management verb _ _ => decide (verb = .get)
  | _ => true

/-- World `w1` is reached from `w` with the management store untouched and only quiet
events added. -/
def World.QuietSince (w w1 : World) : Prop :=
  w1.management = w.management
    ∧ ∃ evs, w1.events = w.events ++ evs ∧ ∀ e ∈ evs, e.quiet = true

/-- The key of the admin kubeconfig secret on the management cluster. -/
def adminKubeconfigKey (hcp : HostedControlPlane) : ObjectKey :=
  { Namespace := hcp.Namespace, Name := lit "service-network-admin-kubeconfig" }

/-- The key of the bootstrap kubeconfig secret on the management cluster. -/
def bootstrapKubeconfigKey (hcp : HostedControlPlane) : ObjectKey :=
  secretResource.key (BootstrapKubeconfigSecret hcp.Namespace)

/-- The key of the token secret on the hosted cluster. -/
def tokenSecretKey : ObjectKey :=
  secretResource.key (BootstrapServicAccountTokenSecret machineConfigOperatorNamespace)

/-- The key of the cluster role binding on the hosted cluster. -/
def clusterRoleBindingKey : ObjectKey :=
  clusterRoleBindingResource.key BootstrapClusterRoleBinding

/-! ## Concrete inputs -/

/-- A store that holds nothing. -/
def emptyStore : Store :=
  { namespaces := fun _ => none, serviceAccounts := fun _ => none,
    clusterRoleBindings := fun _ => none, secrets := fun _ => none }

/-- A store that holds one secret. -/
def storeWithSecret (key : ObjectKey) (secret : Secret) : Store :=
  { emptyStore with secrets := fun k => if k = key then some secret else none }

/-- Library functions that accept the admin kubeconfig `admin`, reject every other one, and
serialize a document to its server URL followed by its CA data; no call is refused. -/
def exampleEnv : Env :=
  { Load := fun b =>
      if b = some (lit "admin") then .ok (some { handle := 0 })
      else .error (.new (lit "couldn't get version/kind; json parse error"))
    ClientConfig := fun _ => .ok { handle := 0 }
    New := fun _ => none
    Marshal := fun c =>
      .ok ((c.Clusters.map fun x =>
        x.Cluster.Server ++ x.Cluster.CertificateAuthorityData.content).flatten)
    deny := fun _ _ _ _ => none }

/-- A hosted control plane in namespace `clusters-a` with endpoint `api.example.com:6443`
and a reference to its admin kubeconfig secret. -/
def exampleHCP : HostedControlPlane :=
  { Namespace := lit "clusters-a", Name := lit "a",
    Status :=
      { KubeConfig := some { Name := lit "service-network-admin-kubeconfig",
                             Key := lit "kubeconfig" }
        ControlPlaneEndpoint := { Host := lit "api.example.com", Port := 6443 } } }

/-- The hosted control plane `exampleHCP` before its admin kubeconfig exists. -/
def exampleHCPNoKubeconfig : HostedControlPlane :=
  { exampleHCP with Status := { exampleHCP.Status with KubeConfig := none } }

/-- A token secret populated with CA data `CAFE` and token `tok-123`. -/
def exampleTokenSecret : Secret :=
  { Data := some [(lit "ca.crt", some (lit "CAFE")), (lit "token", some (lit "tok-123"))] }

/-- A world whose management cluster holds a valid admin kubeconfig secret and whose hosted
cluster holds the populated token secret. -/
def exampleWorld : World :=
  { management := storeWithSecret (adminKubeconfigKey exampleHCP)
      { Data := some [(lit "kubeconfig", some (lit "admin"))] }
    hosted := storeWithSecret tokenSecretKey exampleTokenSecret
    events := [] }

/-- A world whose hosted cluster holds a token secret that has no token yet. -/
def exampleWorldNoToken : World :=
  { exampleWorld with
    hosted := storeWithSecret tokenSecretKey
      { Data := some [(lit "ca.crt", some (lit "CAFE"))] } }

/-- A world whose admin kubeconfig secret holds bytes that do not parse. -/
def exampleWorldBadKubeconfig : World :=
  { exampleWorld with
    management := storeWithSecret (adminKubeconfigKey exampleHCP)
      { Data := some [(lit "kubeconfig", some (lit "not a kubeconfig"))] } }

/-- A world whose admin kubeconfig secret has no `kubeconfig` key. -/
def exampleWorldNoKey : World :=
  { exampleWorld with
    management := storeWithSecret (adminKubeconfigKey exampleHCP)
      { Data := some [(lit "other", some (lit "admin"))] } }

/-! ## Maps -/

theorem assocGet_assocSet {V : Type} (k : GoString) (v : V) (l : List (GoString × V))
    (k1 : GoString) :
    assocGet k1 (assocSet k v l) = if k1 = k then some v else assocGet k1 l := by
  induction l with
  | nil =>
    by_cases h : k1 = k
    · simp [assocSet, assocGet, h]
    · have h1 : ¬ k = k1 := fun e => h e.symm
      simp [assocSet, assocGet, h, h1]
  | cons p rest ih =>
    obtain ⟨k2, v2⟩ := p
    by_cases h2 : k2 = k
    · by_cases h : k1 = k
      · simp [assocSet, assocGet, h2, h]
      · have h1 : ¬ k = k1 := fun e => h e.symm
        simp [assocSet, assocGet, h2, h, h1]
    · by_cases h3 : k2 = k1
      · have h : ¬ k1 = k := fun e => h2 (h3.trans e)
        simp [assocSet, assocGet, h2, h3, h]
      · simp [assocSet, assocGet, h2, h3, ih]

theorem assocSet_assocSet {V : Type} (k : GoString) (v : V) (l : List (GoString × V)) :
    assocSet k v (assocSet k v l) = assocSet k v l := by
  induction l with
  | nil => simp [assocSet]
  | cons p rest ih =>
    obtain ⟨k2, v2⟩ := p
    by_cases h2 : k2 = k
    · simp [assocSet, h2]
    · simp [assocSet, h2, ih]

theorem assocGet_mem_keys {V : Type} (k : GoString) (l : List (GoString × V)) (v : V)
    (h : assocGet k l = some v) : k ∈ l.map Prod.fst := by
  induction l with
  | nil => simp [assocGet] at h
  | cons p rest ih =>
    obtain ⟨k2, v2⟩ := p
    by_cases h2 : k2 = k
    · simp [h2]
    · simp only [assocGet, h2, if_false] at h
      simp [ih h]

theorem mapSemEq_refl {V : Type} (veq : V → V → Bool) (hrefl : ∀ x, veq x x = true)
    (a : GoMap V) : mapSemEq veq a a = true := by
  unfold mapSemEq
  rw [List.all_eq_true]
  intro k _
  cases h : assocGet k a.entries with
  | none => rfl
  | some x => exact hrefl x

theorem mapSemEq_index {V : Type} (veq : V → V → Bool) (a b : GoMap V)
    (h : mapSemEq veq a b = true) (k : GoString) (y : V) (hy : b.index k = some y) :
    ∃ x, a.index k = some x ∧ veq x y = true := by
  unfold mapSemEq at h
  rw [List.all_eq_true] at h
  have hk : k ∈ a.entries.map Prod.fst ++ b.entries.map Prod.fst :=
    List.mem_append_right _ (assocGet_mem_keys k b.entries y hy)
  have hk1 := h k hk
  unfold GoMap.index at hy ⊢
  rw [hy] at hk1
  cases hx : assocGet k a.entries with
  | none => rw [hx] at hk1; simp at hk1
  | some x => rw [hx] at hk1; exact ⟨x, rfl, hk1⟩

theorem objectMeta_semEq_refl (a : ObjectMeta) : a.semEq a = true := by
  simp [ObjectMeta.semEq, mapSemEq_refl]

theorem secret_semEq_refl (a : Secret) : a.semEq a = true := by
  simp [Secret.semEq, objectMeta_semEq_refl, mapSemEq_refl, bytesSemEq]

theorem clusterRoleBinding_semEq_refl (a : ClusterRoleBinding) : a.semEq a = true := by
  simp [ClusterRoleBinding.semEq, objectMeta_semEq_refl]

/-! ## The four resources -/

theorem namespaceResource_lawful : namespaceResource.Lawful where
  key_read := by
    intro st k o h
    simp only [namespaceResource, Option.map_eq_some'] at h
    obtain ⟨a, _, rfl⟩ := h
    rfl
  read_write := by
    intro st o k
    by_cases h : k = namespaceResource.key o
    · subst h; simp [namespaceResource, Resource.key]
    · rw [if_neg h]
      have h1 : ¬ k = { Namespace := o.Namespace, Name := o.Name } := h
      simp [namespaceResource, h1]
  semEq_refl := fun o => objectMeta_semEq_refl _

theorem serviceAccountResource_lawful : serviceAccountResource.Lawful where
  key_read := by
    intro st k o h
    simp only [serviceAccountResource, Option.map_eq_some'] at h
    obtain ⟨a, _, rfl⟩ := h
    rfl
  read_write := by
    intro st o k
    by_cases h : k = serviceAccountResource.key o
    · subst h; simp [serviceAccountResource, Resource.key]
    · rw [if_neg h]
      have h1 : ¬ k = { Namespace := o.Namespace, Name := o.Name } := h
      simp [serviceAccountResource, h1]
  semEq_refl := fun o => objectMeta_semEq_refl _

theorem clusterRoleBindingResource_lawful : clusterRoleBindingResource.Lawful where
  key_read := by
    intro st k o h
    simp only [clusterRoleBindingResource, Option.map_eq_some'] at h
    obtain ⟨a, _, rfl⟩ := h
    rfl
  read_write := by
    intro st o k
    by_cases h : k = clusterRoleBindingResource.key o
    · subst h; simp [clusterRoleBindingResource, Resource.key]
    · rw [if_neg h]
      have h1 : ¬ k = { Namespace := o.Namespace, Name := o.Name } := h
      simp [clusterRoleBindingResource, h1]
  semEq_refl := fun o => clusterRoleBinding_semEq_refl _

theorem secretResource_lawful : secretResource.Lawful where
  key_read := by
    intro st k o h
    simp only [secretResource, Option.map_eq_some'] at h
    obtain ⟨a, _, rfl⟩ := h
    rfl
  read_write := by
    intro st o k
    by_cases h : k = secretResource.key o
    · subst h; simp [secretResource, Resource.key]
    · rw [if_neg h]
      have h1 : ¬ k = { Namespace := o.Namespace, Name := o.Name } := h
      simp [secretResource, h1]
  semEq_refl := fun o => secret_semEq_refl _

/-! ## Worlds -/

@[simp] theorem World.log_management (w : World) (e : Event) :
    (w.log e).management = w.management := rfl

@[simp] theorem World.log_hosted (w : World) (e : Event) : (w.log e).hosted = w.hosted := rfl

@[simp] theorem World.log_store (w : World) (e : Event) (c : ClusterId) :
    (w.log e).store c = w.store c := by
  cases c <;> rfl

@[simp] theorem World.log_events (w : World) (e : Event) :
    (w.log e).events = w.events ++ [e] := rfl

@[simp] theorem World.setStore_store (w : World) (c : ClusterId) (s : Store) :
    (w.setStore c s).store c = s := by
  cases c <;> rfl

theorem World.setStore_store_ne (w : World) (c c1 : ClusterId) (s : Store) (h : c1 ≠ c) :
    (w.setStore c s).store c1 = w.store c1 := by
  cases c <;> cases c1 <;> first | rfl | exact absurd rfl h

@[simp] theorem World.setStore_events (w : World) (c : ClusterId) (s : Store) :
    (w.setStore c s).events = w.events := by
  cases c <;> rfl

@[simp] theorem World.store_management (w : World) : w.store .management = w.management := rfl

@[simp] theorem World.store_hosted (w : World) : w.store .hosted = w.hosted := rfl

/-! ## Client calls -/

theorem Client.Get_snd {α : Type} (env : Env) (R : Resource α) (c : ClusterId)
    (key : ObjectKey) (w : World) :
    (Client.Get env R c key w).2 = w.log (.call c .get R.kind key) := by
  unfold Client.Get
  dsimp only
  split
  · rfl
  · split <;> rfl

theorem Client.Get_ok {α : Type} {env : Env} {R : Resource α} {c : ClusterId}
    {key : ObjectKey} {w w1 : World} {o : α} (h : Client.Get env R c key w = (.ok o, w1)) :
    env.deny c .get R.kind key = none ∧ R.read (w.store c) key = some o
      ∧ w1 = w.log (.call c .get R.kind key) := by
  unfold Client.Get at h
  dsimp only at h
  split at h
  · simp at h
  · rename_i hd
    split at h
    · simp at h
    · rename_i o1 hr
      simp only [Prod.mk.injEq, Except.ok.injEq] at h
      obtain ⟨rfl, rfl⟩ := h
      exact ⟨hd, by simpa using hr, rfl⟩

theorem Client.Get_of_read {α : Type} {env : Env} {R : Resource α} {c : ClusterId}
    {key : ObjectKey} {w : World} {o : α} (hd : env.deny c .get R.kind key = none)
    (hr : R.read (w.store c) key = some o) :
    Client.Get env R c key w = (.ok o, w.log (.call c .get R.kind key)) := by
  unfold Client.Get
  dsimp only
  rw [hd]
  simp only [World.log_store, hr]

theorem Client.Get_error_notFound {α : Type} {env : Env} {R : Resource α} {c : ClusterId}
    {key : ObjectKey} {w w1 : World} {err : GoError}
    (h : Client.Get env R c key w = (.error err, w1)) (hnf : IsNotFound err = true) :
    env.deny c .get R.kind key = none ∧ R.read (w.store c) key = none
      ∧ w1 = w.log (.call c .get R.kind key) := by
  unfold Client.Get at h
  dsimp only at h
  split at h
  · simp only [Prod.mk.injEq, Except.error.injEq] at h
    obtain ⟨rfl, _⟩ := h
    simp [IsNotFound] at hnf
  · rename_i hd
    split at h
    · rename_i hr
      simp only [Prod.mk.injEq, Except.error.injEq] at h
      exact ⟨hd, by simpa using hr, h.2.symm⟩
    · simp at h

theorem Client.Create_snd {α : Type} (env : Env) (R : Resource α) (c : ClusterId) (obj : α)
    (w : World) :
    (Client.Create env R c obj w).2 = w.log (.call c .create R.kind (R.key obj))
      ∨ ((Client.Create env R c obj w).1 = .ok ()
        ∧ (Client.Create env R c obj w).2 =
          (w.log (.call c .create R.kind (R.key obj))).setStore c (R.write (w.store c) obj)) := by
  unfold Client.Create
  dsimp only
  split
  · exact Or.inl rfl
  · split
    · exact Or.inl rfl
    · exact Or.inr ⟨rfl, by simp⟩

theorem Client.Create_ok {α : Type} {env : Env} {R : Resource α} {c : ClusterId} {obj : α}
    {w w1 : World} (h : Client.Create env R c obj w = (.ok (), w1)) :
    w1 = (w.log (.call c .create R.kind (R.key obj))).setStore c (R.write (w.store c) obj) := by
  unfold Client.Create at h
  dsimp only at h
  split at h
  · simp at h
  · split at h
    · simp at h
    · simp only [Prod.mk.injEq, true_and] at h
      rw [← h]
      simp

theorem Client.Write_snd {α : Type} (env : Env) (R : Resource α) (verb : Verb) (c : ClusterId)
    (obj : α) (w : World) :
    (Client.Write env R verb c obj w).2 = w.log (.call c verb R.kind (R.key obj))
      ∨ ((Client.Write env R verb c obj w).1 = .ok ()
        ∧ (Client.Write env R verb c obj w).2 =
          (w.log (.call c verb R.kind (R.key obj))).setStore c (R.write (w.store c) obj)) := by
  unfold Client.Write
  dsimp only
  split
  · exact Or.inl rfl
  · split
    · exact Or.inl rfl
    · exact Or.inr ⟨rfl, by simp⟩

theorem Client.Write_ok {α : Type} {env : Env} {R : Resource α} {verb : Verb} {c : ClusterId}
    {obj : α} {w w1 : World} (h : Client.Write env R verb c obj w = (.ok (), w1)) :
    w1 = (w.log (.call c verb R.kind (R.key obj))).setStore c (R.write (w.store c) obj) := by
  unfold Client.Write at h
  dsimp only at h
  split at h
  · simp at h
  · split at h
    · simp at h
    · simp only [Prod.mk.injEq, true_and] at h
      rw [← h]
      simp

theorem mutate_ok {α : Type} {R : Resource α} {f : α → α × Option GoError} {key : ObjectKey}
    {obj o : α} (h : mutate R f key obj = .ok o) : f obj = (o, none) ∧ R.key o = key := by
  unfold mutate at h
  split at h
  · simp at h
  · rename_i o1 hf
    split at h
    · simp at h
    · rename_i hk
      simp only [Except.ok.injEq] at h
      subst h
      exact ⟨hf, (not_not.mp hk).symm⟩

theorem mutate_of_eq {α : Type} {R : Resource α} {f : α → α × Option GoError} {key : ObjectKey}
    {obj o : α} (hf : f obj = (o, none)) (hk : R.key o = key) : mutate R f key obj = .ok o := by
  unfold mutate
  rw [hf]
  simp [hk]

/-- What a run of `createOrWrite` may change: nothing on another cluster, and the events it
adds are calls on its own cluster for the kind and key of its object. -/
theorem createOrWrite_frame {α : Type} (env : Env) (R : Resource α) (verb : Verb)
    (c : ClusterId) (obj : α) (f : α → α × Option GoError) (w : World) :
    (∀ c1, c1 ≠ c → (createOrWrite env R verb c obj f w).2.store c1 = w.store c1)
      ∧ ∃ evs, (createOrWrite env R verb c obj f w).2.events = w.events ++ evs
        ∧ ∀ e ∈ evs, ∃ v, e = .call c v R.kind (R.key obj) := by
  unfold createOrWrite
  dsimp only
  have hg := Client.Get_snd env R c (R.key obj) w
  rcases hget : Client.Get env R c (R.key obj) w with ⟨r, w1⟩
  rw [hget] at hg
  dsimp only at hg
  subst hg
  have base : (∀ c1, c1 ≠ c → (w.log (.call c .get R.kind (R.key obj))).store c1 = w.store c1)
      ∧ ∃ evs, (w.log (.call c .get R.kind (R.key obj))).events = w.events ++ evs
        ∧ ∀ e ∈ evs, ∃ v, e = .call c v R.kind (R.key obj) :=
    ⟨fun c1 _ => by simp, [_], rfl, by simp⟩
  cases r with
  | error err =>
    dsimp only
    split
    · exact base
    · cases hm : mutate R f (R.key obj) obj with
      | error e => exact base
      | ok o =>
        dsimp only
        have hk := (mutate_ok hm).2
        rcases hc : Client.Create env R c o (w.log (.call c .get R.kind (R.key obj)))
          with ⟨r2, w2⟩
        have hs := Client.Create_snd env R c o (w.log (.call c .get R.kind (R.key obj)))
        rw [hc, hk] at hs
        dsimp only at hs
        have hw2 : (∀ c1, c1 ≠ c → w2.store c1 = w.store c1)
            ∧ ∃ evs, w2.events = w.events ++ evs
              ∧ ∀ e ∈ evs, ∃ v, e = .call c v R.kind (R.key obj) := by
          have hmem : ∀ e ∈ [Event.call c .get R.kind (R.key obj),
              Event.call c .create R.kind (R.key obj)], ∃ v, e = .call c v R.kind (R.key obj) := by
            intro e he
            simp only [List.mem_cons, List.mem_singleton, List.not_mem_nil, or_false] at he
            rcases he with rfl | rfl <;> exact ⟨_, rfl⟩
          rcases hs with hs | ⟨_, hs⟩
          · subst hs
            exact ⟨fun c1 _ => by simp, _, by simp, hmem⟩
          · subst hs
            refine ⟨fun c1 h1 => ?_, _, by simp, hmem⟩
            rw [World.setStore_store_ne _ _ _ _ h1]
            simp
        cases r2 <;> exact hw2
  | ok existing =>
    dsimp only
    cases hm : mutate R f (R.key obj) existing with
    | error e => exact base
    | ok o =>
      dsimp only
      have hk := (mutate_ok hm).2
      split
      · exact base
      · rcases hc : Client.Write env R verb c o (w.log (.call c .get R.kind (R.key obj)))
          with ⟨r2, w2⟩
        have hs := Client.Write_snd env R verb c o (w.log (.call c .get R.kind (R.key obj)))
        rw [hc, hk] at hs
        dsimp only at hs
        have hw2 : (∀ c1, c1 ≠ c → w2.store c1 = w.store c1)
            ∧ ∃ evs, w2.events = w.events ++ evs
              ∧ ∀ e ∈ evs, ∃ v, e = .call c v R.kind (R.key obj) := by
          have hmem : ∀ e ∈ [Event.call c .get R.kind (R.key obj),
              Event.call c verb R.kind (R.key obj)], ∃ v, e = .call c v R.kind (R.key obj) := by
            intro e he
            simp only [List.mem_cons, List.mem_singleton, List.not_mem_nil, or_false] at he
            rcases he with rfl | rfl <;> exact ⟨_, rfl⟩
          rcases hs with hs | ⟨_, hs⟩
          · subst hs
            exact ⟨fun c1 _ => by simp, _, by simp, hmem⟩
          · subst hs
            refine ⟨fun c1 h1 => ?_, _, by simp, hmem⟩
            rw [World.setStore_store_ne _ _ _ _ h1]
            simp
        cases r2 <;> exact hw2

/-- What a successful run of `createOrWrite` leaves: the returned object has the key of
the given one, the store of the cluster holds under that key an object that the mutation
maps to the returned object and that is semantically equal to it, and the store is either
untouched or the old one with the returned object written. -/
theorem createOrWrite_ok {α : Type} {env : Env} {R : Resource α} {verb : Verb}
    {c : ClusterId} {obj : α} {f : α → α × Option GoError} {w w1 : World} {o : α}
    (hR : R.Lawful) (hf : ∀ a b, f a = (b, none) → f b = (b, none))
    (h : createOrWrite env R verb c obj f w = (.ok o, w1)) :
    env.deny c .get R.kind (R.key obj) = none ∧ R.key o = R.key obj
      ∧ (∃ x, R.read (w1.store c) (R.key obj) = some x ∧ f x = (o, none)
          ∧ R.semEq x o = true)
      ∧ (w1.store c = w.store c ∨ w1.store c = R.write (w.store c) o) := by
  unfold createOrWrite at h
  dsimp only at h
  rcases hget : Client.Get env R c (R.key obj) w with ⟨r, w0⟩
  rw [hget] at h
  cases r with
  | error err =>
    dsimp only at h
    split at h
    · simp at h
    · rename_i hnf
      obtain ⟨hd, hr, rfl⟩ := Client.Get_error_notFound hget (by simpa using hnf)
      cases hm : mutate R f (R.key obj) obj with
      | error e => rw [hm] at h; simp at h
      | ok o1 =>
        rw [hm] at h
        dsimp only at h
        obtain ⟨hfo, hk⟩ := mutate_ok hm
        rcases hc : Client.Create env R c o1 (w.log (.call c .get R.kind (R.key obj)))
          with ⟨r2, w2⟩
        rw [hc] at h
        cases r2 with
        | error e => simp at h
        | ok u =>
          simp only [Prod.mk.injEq, Except.ok.injEq] at h
          obtain ⟨rfl, rfl⟩ := h
          have hw := Client.Create_ok hc
          subst hw
          refine ⟨hd, hk, ⟨o1, ?_, hf _ _ hfo, hR.semEq_refl _⟩, Or.inr (by simp)⟩
          simp [hR.read_write, hk]
  | ok existing =>
    dsimp only at h
    obtain ⟨hd, hr, rfl⟩ := Client.Get_ok hget
    cases hm : mutate R f (R.key obj) existing with
    | error e => rw [hm] at h; simp at h
    | ok o1 =>
      rw [hm] at h
      dsimp only at h
      obtain ⟨hfo, hk⟩ := mutate_ok hm
      split at h
      · rename_i hse
        simp only [Prod.mk.injEq, Except.ok.injEq] at h
        obtain ⟨rfl, rfl⟩ := h
        exact ⟨hd, hk, ⟨existing, by simpa using hr, hfo, hse⟩, Or.inl (by simp)⟩
      · rcases hc : Client.Write env R verb c o1 (w.log (.call c .get R.kind (R.key obj)))
          with ⟨r2, w2⟩
        rw [hc] at h
        cases r2 with
        | error e => simp at h
        | ok u =>
          simp only [Prod.mk.injEq, Except.ok.injEq] at h
          obtain ⟨rfl, rfl⟩ := h
          have hw := Client.Write_ok hc
          subst hw
          refine ⟨hd, hk, ⟨o1, ?_, hf _ _ hfo, hR.semEq_refl _⟩, Or.inr (by simp)⟩
          simp [hR.read_write, hk]

/-- A run of `createOrWrite` on a store that already holds an object the mutation leaves
semantically unchanged only reads. -/
theorem createOrWrite_settled {α : Type} {env : Env} {R : Resource α} {verb : Verb}
    {c : ClusterId} {obj : α} {f : α → α × Option GoError} {w : World} {x o : α}
    (hd : env.deny c .get R.kind (R.key obj) = none)
    (hr : R.read (w.store c) (R.key obj) = some x) (hfx : f x = (o, none))
    (hk : R.key o = R.key obj) (hse : R.semEq x o = true) :
    createOrWrite env R verb c obj f w
      = (.ok o, w.log (.call c .get R.kind (R.key obj))) := by
  unfold createOrWrite
  dsimp only
  rw [Client.Get_of_read hd hr]
  dsimp only
  rw [mutate_of_eq hfx hk]
  simp [hse]

/-! ## The mutations -/

theorem reconcileBootstrapClusterRoleBinding_idem (role : ClusterRole) (sa : ServiceAccount)
    (a b : ClusterRoleBinding) (h : reconcileBootstrapClusterRoleBinding a role sa = (b, none)) :
    reconcileBootstrapClusterRoleBinding b role sa = (b, none) := by
  simp only [reconcileBootstrapClusterRoleBinding, Prod.mk.injEq, and_true] at h ⊢
  subst h
  rfl

theorem tokenSecretMutate_idem (sa : ServiceAccount) (a b : Secret)
    (h : tokenSecretMutate sa a = (b, none)) : tokenSecretMutate sa b = (b, none) := by
  simp only [tokenSecretMutate, Prod.mk.injEq, and_true] at h ⊢
  subst h
  simp [GoMap.entries, assocSet_assocSet]

theorem reconcileBootstrapKubeconfigSecret_idem (kcData : Bytes) (key : GoString)
    (a b : Secret) (h : reconcileBootstrapKubeconfigSecret a kcData key = (b, none)) :
    reconcileBootstrapKubeconfigSecret b kcData key = (b, none) := by
  simp only [reconcileBootstrapKubeconfigSecret, Prod.mk.injEq, and_true] at h ⊢
  subst h
  simp [GoMap.entries, assocSet_assocSet]

theorem reconcileBootstrapKubeconfigSecret_data (secret : Secret) (kcData : Bytes)
    (key k : GoString) :
    (reconcileBootstrapKubeconfigSecret secret kcData key).1.Data.index k =
      if k = (if key = lit "" then lit "kubeconfig" else key) then some kcData
      else secret.Data.index k := by
  simp only [reconcileBootstrapKubeconfigSecret, GoMap.index, GoMap.entries]
  rw [Option.getD_some, assocGet_assocSet]
  by_cases h : secret.Labels = none <;> by_cases h1 : secret.Data = none <;> simp [h, h1]

/-! ## Claims about the pure functions -/

/-- C1: for every token secret and server URL, the document `kubeconfigFromSecret` builds
before serialization has exactly one cluster entry, named `local`, with the given server
and the `ca.crt` bytes of the secret as CA data; exactly one credential entry, named
`kubelet`, whose token is the `token` bytes read as a string; exactly one context, named
`kubelet`, that links cluster `local` to credential `kubelet`; and current context
`kubelet`. Whenever the function returns no error its second value is the `ca.crt` bytes,
and it returns no error whenever the serializer succeeds. -/
theorem C1_kubeconfigFromSecret_document (Marshal : Config → Except GoError (List UInt8))
    (secret : Secret) (apiserverURL : GoString) :
    (kubeconfigFromSecret.kubeconfig secret apiserverURL).Clusters
        = [{ Name := lit "local",
             Cluster := { Server := apiserverURL,
                          CertificateAuthorityData := secret.Data.at (lit "ca.crt") } }]
      ∧ (kubeconfigFromSecret.kubeconfig secret apiserverURL).AuthInfos
        = [{ Name := lit "kubelet",
             AuthInfo := { Token := stringOfBytes (secret.Data.at (lit "token")) } }]
      ∧ (kubeconfigFromSecret.kubeconfig secret apiserverURL).Contexts
        = [{ Name := lit "kubelet",
             Context := { Cluster := lit "local", AuthInfo := lit "kubelet" } }]
      ∧ (kubeconfigFromSecret.kubeconfig secret apiserverURL).CurrentContext = lit "kubelet"
      ∧ ((kubeconfigFromSecret Marshal secret apiserverURL).2.2 = none →
          (kubeconfigFromSecret Marshal secret apiserverURL).2.1
            = secret.Data.at (lit "ca.crt"))
      ∧ ∀ kcData, Marshal (kubeconfigFromSecret.kubeconfig secret apiserverURL) = .ok kcData →
          kubeconfigFromSecret Marshal secret apiserverURL
            = (some kcData, secret.Data.at (lit "ca.crt"), none) := by
  refine ⟨rfl, rfl, rfl, rfl, ?_, ?_⟩
  · intro h
    unfold kubeconfigFromSecret at h ⊢
    dsimp only at h ⊢
    split at h
    · simp at h
    · rfl
  · intro kcData h
    unfold kubeconfigFromSecret
    dsimp only
    rw [h]
    rfl

/-- C1, at a concrete input: the populated token secret and the serializer of `exampleEnv`
give a document with server `https://api.example.com:6443`, and the second returned value
is `CAFE`. -/
theorem C1_kubeconfigFromSecret_document_witness :
    (kubeconfigFromSecret exampleEnv.Marshal exampleTokenSecret
        (lit "https://api.example.com:6443")).2.1 = some (lit "CAFE")
      ∧ kubeconfigFromSecret exampleEnv.Marshal exampleTokenSecret
          (lit "https://api.example.com:6443")
        = (some (lit "https://api.example.com:6443CAFE"), some (lit "CAFE"), none) :=
  ⟨((C1_kubeconfigFromSecret_document exampleEnv.Marshal exampleTokenSecret
        (lit "https://api.example.com:6443")).2.2.2.2.1 (by decide)).trans (by decide),
   ((C1_kubeconfigFromSecret_document exampleEnv.Marshal exampleTokenSecret
        (lit "https://api.example.com:6443")).2.2.2.2.2 (lit "https://api.example.com:6443CAFE")
        (by decide)).trans (by decide)⟩

/-- C2 as stated fails: in the document built for the empty secret and the URL
`https://api.example.com:6443` there is no cluster entry, credential entry and context such
that the context links both and its name equals the name of each. -/
theorem C2_context_name_counterexample :
    ¬ ∃ cl au ctx,
      (kubeconfigFromSecret.kubeconfig {} (lit "https://api.example.com:6443")).Clusters = [cl]
      ∧ (kubeconfigFromSecret.kubeconfig {} (lit "https://api.example.com:6443")).AuthInfos
          = [au]
      ∧ (kubeconfigFromSecret.kubeconfig {} (lit "https://api.example.com:6443")).Contexts
          = [ctx]
      ∧ ctx.Context.Cluster = cl.Name ∧ ctx.Context.AuthInfo = au.Name
      ∧ ctx.Name = cl.Name ∧ ctx.Name = au.Name
      ∧ (kubeconfigFromSecret.kubeconfig {} (lit "https://api.example.com:6443")).CurrentContext
          = ctx.Name := by
  rintro ⟨cl, au, ctx, hcl, _, hctx, _, _, hname, _, _⟩
  simp only [kubeconfigFromSecret.kubeconfig, List.cons.injEq, and_true] at hcl hctx
  subst hcl
  subst hctx
  revert hname
  decide

/-- C2, amended: for every token secret and server URL the document holds exactly one
cluster entry, one credential entry and one context; the context refers to the cluster
entry by its name `local` and to the credential entry by its name `kubelet`; the name of
the context equals the name of the credential entry and differs from the name of the
cluster entry; and the context is the current one. -/
theorem C2_context_links (secret : Secret) (apiserverURL : GoString) :
    ∃ cl au ctx,
      (kubeconfigFromSecret.kubeconfig secret apiserverURL).Clusters = [cl]
      ∧ (kubeconfigFromSecret.kubeconfig secret apiserverURL).AuthInfos = [au]
      ∧ (kubeconfigFromSecret.kubeconfig secret apiserverURL).Contexts = [ctx]
      ∧ ctx.Context.Cluster = cl.Name ∧ ctx.Context.AuthInfo = au.Name
      ∧ cl.Name = lit "local" ∧ au.Name = lit "kubelet"
      ∧ ctx.Name = au.Name ∧ ctx.Name ≠ cl.Name
      ∧ (kubeconfigFromSecret.kubeconfig secret apiserverURL).CurrentContext = ctx.Name :=
  ⟨_, _, _, rfl, rfl, rfl, rfl, rfl, rfl, rfl, rfl,
    (by decide : lit "kubelet" ≠ lit "local"), rfl⟩

/-- C5: for every prior state of a cluster role binding, `reconcileBootstrapClusterRoleBinding`
returns no error and leaves RoleRef `rbac.authorization.k8s.io` / `ClusterRole` / the name
of the role and exactly one subject, `ServiceAccount` / the name and namespace of the
service account; the metadata is kept; the result is the same whatever RoleRef and subjects
were there before; and a second application changes nothing. For the role and service
account of the manifests the names are `system:node-bootstrapper` and `node-bootstrapper`. -/
theorem C5_reconcileBootstrapClusterRoleBinding (binding : ClusterRoleBinding)
    (role : ClusterRole) (sa : ServiceAccount) :
    (reconcileBootstrapClusterRoleBinding binding role sa).2 = none
      ∧ (reconcileBootstrapClusterRoleBinding binding role sa).1.RoleRef
        = { APIGroup := lit "rbac.authorization.k8s.io", Kind := lit "ClusterRole",
            Name := role.Name }
      ∧ (reconcileBootstrapClusterRoleBinding binding role sa).1.Subjects
        = [{ Kind := lit "ServiceAccount", APIGroup := lit "", Name := sa.Name,
             Namespace := sa.Namespace }]
      ∧ (reconcileBootstrapClusterRoleBinding binding role sa).1.toObjectMeta
        = binding.toObjectMeta
      ∧ (∀ (roleRef : RoleRef) (subjects : List Subject),
          reconcileBootstrapClusterRoleBinding
            { binding with RoleRef := roleRef, Subjects := subjects } role sa
          = reconcileBootstrapClusterRoleBinding binding role sa)
      ∧ reconcileBootstrapClusterRoleBinding
          (reconcileBootstrapClusterRoleBinding binding role sa).1 role sa
        = reconcileBootstrapClusterRoleBinding binding role sa
      ∧ ∀ ns, (reconcileBootstrapClusterRoleBinding binding BootstrapClusterRole
            (BootstrapServiceAccount ns)).1.RoleRef.Name = lit "system:node-bootstrapper"
          ∧ (reconcileBootstrapClusterRoleBinding binding BootstrapClusterRole
            (BootstrapServiceAccount ns)).1.Subjects
            = [{ Kind := lit "ServiceAccount", Name := lit "node-bootstrapper",
                 Namespace := ns }] :=
  ⟨rfl, rfl, rfl, rfl, fun _ _ => rfl, rfl, fun _ => ⟨rfl, rfl⟩⟩

/-- C6: for every secret, document and key, `reconcileBootstrapKubeconfigSecret` returns no
error and leaves label `hypershift.openshift.io/kubeconfig` set to `bootstrap`, a non-nil
data map, and the document under the given key, or under `kubeconfig` when the given key is
empty; every other label and data entry, and the name, namespace, annotations and type of
the secret, are as before. -/
theorem C6_reconcileBootstrapKubeconfigSecret (secret : Secret) (kcData : Bytes)
    (key : GoString) :
    (reconcileBootstrapKubeconfigSecret secret kcData key).2 = none
      ∧ (reconcileBootstrapKubeconfigSecret secret kcData key).1.Data ≠ none
      ∧ (∀ k, (reconcileBootstrapKubeconfigSecret secret kcData key).1.Labels.index k =
          if k = lit "hypershift.openshift.io/kubeconfig" then some (lit "bootstrap")
          else secret.Labels.index k)
      ∧ (∀ k, (reconcileBootstrapKubeconfigSecret secret kcData key).1.Data.index k =
          if k = (if key = lit "" then lit "kubeconfig" else key) then some kcData
          else secret.Data.index k)
      ∧ (reconcileBootstrapKubeconfigSecret secret kcData key).1.Name = secret.Name
      ∧ (reconcileBootstrapKubeconfigSecret secret kcData key).1.Namespace = secret.Namespace
      ∧ (reconcileBootstrapKubeconfigSecret secret kcData key).1.Annotations
          = secret.Annotations
      ∧ (reconcileBootstrapKubeconfigSecret secret kcData key).1.Type_ = secret.Type_ := by
  refine ⟨rfl, by simp [reconcileBootstrapKubeconfigSecret], ?_,
    reconcileBootstrapKubeconfigSecret_data secret kcData key, ?_, ?_, ?_, ?_⟩
  · intro k
    simp only [reconcileBootstrapKubeconfigSecret, GoMap.index, GoMap.entries]
    rw [Option.getD_some, assocGet_assocSet]
    by_cases h : secret.Labels = none <;> by_cases h1 : secret.Data = none <;> simp [h, h1]
  all_goals
    simp only [reconcileBootstrapKubeconfigSecret]
    by_cases h : secret.Labels = none <;> by_cases h1 : secret.Data = none <;> simp [h, h1]

/-! ## Claims about single steps of the pass -/

/-- C10: for every prior state of the token secret, the mutation of the token-secret step,
run with the service account the service-account step returned, returns no error, sets
annotation `kubernetes.io/service-account.name` to the name of the service account, which
is `node-bootstrapper`, and the type to `kubernetes.io/service-account-token`; every other
annotation, the data, the labels, the name and the namespace are as before. -/
theorem C10_token_secret_mutation (env : Env) (w : World) (sa : ServiceAccount)
    (h : (CreateOrUpdate env serviceAccountResource .hosted
      (BootstrapServiceAccount machineConfigOperatorNamespace) (fun o => (o, none)) w).1
        = .ok sa)
    (tokenSecret : Secret) :
    sa.Name = lit "node-bootstrapper"
      ∧ (tokenSecretMutate sa tokenSecret).2 = none
      ∧ (∀ k, (tokenSecretMutate sa tokenSecret).1.Annotations.index k =
          if k = lit "kubernetes.io/service-account.name" then some (lit "node-bootstrapper")
          else tokenSecret.Annotations.index k)
      ∧ (tokenSecretMutate sa tokenSecret).1.Type_ = lit "kubernetes.io/service-account-token"
      ∧ (tokenSecretMutate sa tokenSecret).1.Data = tokenSecret.Data
      ∧ (tokenSecretMutate sa tokenSecret).1.Labels = tokenSecret.Labels
      ∧ (tokenSecretMutate sa tokenSecret).1.Name = tokenSecret.Name
      ∧ (tokenSecretMutate sa tokenSecret).1.Namespace = tokenSecret.Namespace := by
  have hname : sa.Name = lit "node-bootstrapper" := by
    rcases hrun : CreateOrUpdate env serviceAccountResource .hosted
      (BootstrapServiceAccount machineConfigOperatorNamespace) (fun o => (o, none)) w
      with ⟨r, w1⟩
    rw [hrun] at h
    dsimp only at h
    subst h
    have hk := (createOrWrite_ok serviceAccountResource_lawful
      (fun _ _ _ => rfl)
      hrun).2.1
    exact congrArg ObjectKey.Name hk
  refine ⟨hname, rfl, ?_, rfl, ?_, ?_, ?_, ?_⟩
  · intro k
    simp only [tokenSecretMutate, GoMap.index, GoMap.entries]
    rw [Option.getD_some, assocGet_assocSet, hname]
    by_cases h1 : tokenSecret.Annotations = none <;> simp [h1]
  all_goals
    simp only [tokenSecretMutate]
    by_cases h1 : tokenSecret.Annotations = none <;> simp [h1]

/-- C10, at a concrete input: on the world `exampleWorld` the service-account step returns
the service account of the manifests, and the mutation keeps the token and CA data of the
populated token secret. -/
theorem C10_token_secret_mutation_witness :
    (tokenSecretMutate (BootstrapServiceAccount machineConfigOperatorNamespace)
        exampleTokenSecret).1.Data
      = some [(lit "ca.crt", some (lit "CAFE")), (lit "token", some (lit "tok-123"))] :=
  (C10_token_secret_mutation exampleEnv exampleWorld
    (BootstrapServiceAccount machineConfigOperatorNamespace) (by decide)
    exampleTokenSecret).2.2.2.2.1

/-- C3: when the reference `Status.KubeConfig` is nil the pass returns the error
`hosted controlplane kubeconfig secret is not generated` and leaves the world as it found
it: no event is logged, so no client call is made, and both stores are unchanged. -/
theorem C3_nil_kubeconfig_reference (env : Env) (hcp : HostedControlPlane) (w : World)
    (h : hcp.Status.KubeConfig = none) :
    ReconcileBootstrapKubeconfig env hcp w
        = (.error (.new (lit "hosted controlplane kubeconfig secret is not generated")), w)
      ∧ (ReconcileBootstrapKubeconfig env hcp w).2.events = w.events
      ∧ (ReconcileBootstrapKubeconfig env hcp w).2.management = w.management
      ∧ (ReconcileBootstrapKubeconfig env hcp w).2.hosted = w.hosted := by
  have h1 : ReconcileBootstrapKubeconfig env hcp w
      = (.error (.new (lit "hosted controlplane kubeconfig secret is not generated")), w) := by
    unfold ReconcileBootstrapKubeconfig
    rw [if_pos h]
    rfl
  rw [h1]
  exact ⟨rfl, rfl, rfl, rfl⟩

/-- C3, at a concrete input: the hosted control plane without a kubeconfig reference on the
world `exampleWorld` fails with no event logged. -/
theorem C3_nil_kubeconfig_reference_witness :
    (ReconcileBootstrapKubeconfig exampleEnv exampleHCPNoKubeconfig exampleWorld).2.events
      = [] :=
  (C3_nil_kubeconfig_reference exampleEnv exampleHCPNoKubeconfig exampleWorld
    (by decide)).2.1

/-- C8, the code at the failing inputs. When the `kubeconfig` value does not parse, the
pass returns the error of `clientcmd.Load` as it is: an error without a cause whose message
does not name the secret. When the `kubeconfig` key is missing, the returned error names
the secret, ends in `%!w(<nil>)` and wraps nothing. In both cases the only event is the
`Get` of the admin kubeconfig secret. -/
theorem C8_load_error_returned_bare :
    (ReconcileBootstrapKubeconfig exampleEnv exampleHCP exampleWorldBadKubeconfig).1
        = .error (.new (lit "couldn't get version/kind; json parse error"))
      ∧ (ReconcileBootstrapKubeconfig exampleEnv exampleHCP exampleWorldBadKubeconfig).2.events
        = [.call .management .get .secret (adminKubeconfigKey exampleHCP)]
      ∧ (ReconcileBootstrapKubeconfig exampleEnv exampleHCP exampleWorldNoKey).1
        = .error (.new (lit ("failed to load hosted controlplane kubeconfig from secret "
            ++ "\"service-network-admin-kubeconfig\": %!w(<nil>)")))
      ∧ (ReconcileBootstrapKubeconfig exampleEnv exampleHCP exampleWorldNoKey).2.events
        = [.call .management .get .secret (adminKubeconfigKey exampleHCP)] := by
  refine ⟨by decide, by decide, by decide, by decide⟩

/-! ## Frames of the steps -/

theorem World.quietSince_refl (w : World) : w.QuietSince w :=
  ⟨rfl, [], by simp, by simp⟩

theorem World.quietSince_trans {w w1 w2 : World} (h1 : w.QuietSince w1)
    (h2 : w1.QuietSince w2) : w.QuietSince w2 := by
  obtain ⟨hm1, evs1, he1, hq1⟩ := h1
  obtain ⟨hm2, evs2, he2, hq2⟩ := h2
  refine ⟨hm2.trans hm1, evs1 ++ evs2, by rw [he2, he1, List.append_assoc], ?_⟩
  intro e he
  rcases List.mem_append.mp he with h | h
  · exact hq1 e h
  · exact hq2 e h

theorem World.quietSince_log (w : World) (e : Event) (he : e.quiet = true) :
    w.QuietSince (w.log e) :=
  ⟨rfl, [e], rfl, by simpa using he⟩

theorem Client.Get_quiet {α : Type} {env : Env} {R : Resource α} {c : ClusterId}
    {key : ObjectKey} {w w1 : World} {r : Except GoError α}
    (h : Client.Get env R c key w = (r, w1)) : w.QuietSince w1 := by
  have h1 := Client.Get_snd env R c key w
  rw [h] at h1
  dsimp only at h1
  subst h1
  exact World.quietSince_log _ _ (by cases c <;> rfl)

theorem createOrWrite_quiet {α : Type} {env : Env} {R : Resource α} {verb : Verb} {obj : α}
    {f : α → α × Option GoError} {w w1 : World} {r : Except GoError α}
    (h : createOrWrite env R verb .hosted obj f w = (r, w1)) : w.QuietSince w1 := by
  obtain ⟨hst, evs, hev, hmem⟩ := createOrWrite_frame env R verb .hosted obj f w
  rw [h] at hst hev
  dsimp only at hst hev
  refine ⟨by simpa using hst .management (by decide), evs, hev, ?_⟩
  intro e he
  obtain ⟨v, rfl⟩ := hmem e he
  rfl

theorem createOrWrite_hosted_eq {α : Type} {env : Env} {R : Resource α} {verb : Verb}
    {obj : α} {f : α → α × Option GoError} {w w1 : World} {r : Except GoError α}
    (h : createOrWrite env R verb .management obj f w = (r, w1)) : w1.hosted = w.hosted := by
  have hst := (createOrWrite_frame env R verb .management obj f w).1 .hosted (by decide)
  rw [h] at hst
  simpa using hst

theorem createOrWrite_ok_hosted {α : Type} {env : Env} {R : Resource α} {verb : Verb}
    {obj : α} {f : α → α × Option GoError} {w w1 : World} {o : α}
    (hR : R.Lawful) (hf : ∀ a b, f a = (b, none) → f b = (b, none))
    (h : createOrWrite env R verb .hosted obj f w = (.ok o, w1)) :
    env.deny .hosted .get R.kind (R.key obj) = none ∧ R.key o = R.key obj
      ∧ (∃ x, R.read w1.hosted (R.key obj) = some x ∧ f x = (o, none) ∧ R.semEq x o = true)
      ∧ (w1.hosted = w.hosted ∨ w1.hosted = R.write w.hosted o)
      ∧ w1.management = w.management := by
  obtain ⟨hd, hk, hx, hs⟩ := createOrWrite_ok hR hf h
  exact ⟨hd, hk, hx, hs, (createOrWrite_quiet h).1⟩

theorem createOrWrite_ok_management {α : Type} {env : Env} {R : Resource α} {verb : Verb}
    {obj : α} {f : α → α × Option GoError} {w w1 : World} {o : α}
    (hR : R.Lawful) (hf : ∀ a b, f a = (b, none) → f b = (b, none))
    (h : createOrWrite env R verb .management obj f w = (.ok o, w1)) :
    env.deny .management .get R.kind (R.key obj) = none ∧ R.key o = R.key obj
      ∧ (∃ x, R.read w1.management (R.key obj) = some x ∧ f x = (o, none)
          ∧ R.semEq x o = true)
      ∧ (w1.management = w.management ∨ w1.management = R.write w.management o)
      ∧ w1.hosted = w.hosted := by
  obtain ⟨hd, hk, hx, hs⟩ := createOrWrite_ok hR hf h
  exact ⟨hd, hk, hx, hs, createOrWrite_hosted_eq h⟩

@[simp] theorem namespace_read_serviceAccount_write (st : Store) (o : ServiceAccount)
    (k : ObjectKey) :
    namespaceResource.read (serviceAccountResource.write st o) k
      = namespaceResource.read st k := rfl

@[simp] theorem namespace_read_clusterRoleBinding_write (st : Store) (o : ClusterRoleBinding)
    (k : ObjectKey) :
    namespaceResource.read (clusterRoleBindingResource.write st o) k
      = namespaceResource.read st k := rfl

@[simp] theorem namespace_read_secret_write (st : Store) (o : Secret) (k : ObjectKey) :
    namespaceResource.read (secretResource.write st o) k = namespaceResource.read st k := rfl

@[simp] theorem serviceAccount_read_clusterRoleBinding_write (st : Store)
    (o : ClusterRoleBinding) (k : ObjectKey) :
    serviceAccountResource.read (clusterRoleBindingResource.write st o) k
      = serviceAccountResource.read st k := rfl

@[simp] theorem serviceAccount_read_secret_write (st : Store) (o : Secret) (k : ObjectKey) :
    serviceAccountResource.read (secretResource.write st o) k
      = serviceAccountResource.read st k := rfl

@[simp] theorem clusterRoleBinding_read_secret_write (st : Store) (o : Secret)
    (k : ObjectKey) :
    clusterRoleBindingResource.read (secretResource.write st o) k
      = clusterRoleBindingResource.read st k := rfl

theorem kubeconfigFromSecret_ok {Marshal : Config → Except GoError (List UInt8)}
    {secret : Secret} {url : GoString} {kcData x : Bytes}
    (h : kubeconfigFromSecret Marshal secret url = (kcData, x, none)) :
    ∃ doc, Marshal (kubeconfigFromSecret.kubeconfig secret url) = .ok doc
      ∧ kcData = some doc := by
  unfold kubeconfigFromSecret at h
  dsimp only at h
  split at h
  · simp at h
  · rename_i doc hdoc
    simp only [Prod.mk.injEq, and_true] at h
    exact ⟨doc, hdoc, h.1.symm⟩

/-- Every pass either fails quietly, with the management store untouched, no run of
`kubeconfigFromSecret` and no write on the management cluster, or ends with a token secret
on the hosted cluster that has both its CA data and its token. -/
theorem pass_fails_quietly_or_token_issued (env : Env) (hcp : HostedControlPlane)
    (w : World) :
    ((∃ err, (ReconcileBootstrapKubeconfig env hcp w).1 = .error err)
        ∧ w.QuietSince (ReconcileBootstrapKubeconfig env hcp w).2)
      ∨ ∃ ts, secretResource.read (ReconcileBootstrapKubeconfig env hcp w).2.hosted
            tokenSecretKey = some ts
          ∧ ts.Data.at ServiceAccountRootCAKey ≠ none
          ∧ ts.Data.at ServiceAccountTokenKey ≠ none := by
  unfold ReconcileBootstrapKubeconfig
  split
  · exact Or.inl ⟨⟨_, rfl⟩, World.quietSince_refl w⟩
  dsimp only
  split
  · rename_i hget
    exact Or.inl ⟨⟨_, rfl⟩, Client.Get_quiet hget⟩
  rename_i adminSecret wa hget
  have qa := Client.Get_quiet hget
  split
  · exact Or.inl ⟨⟨_, rfl⟩, qa⟩
  · exact Or.inl ⟨⟨_, rfl⟩, qa⟩
  split
  · exact Or.inl ⟨⟨_, rfl⟩, qa⟩
  have qc := World.quietSince_trans qa (World.quietSince_log wa .newClient rfl)
  split
  · exact Or.inl ⟨⟨_, rfl⟩, qc⟩
  split
  · rename_i hN
    exact Or.inl ⟨⟨_, rfl⟩, World.quietSince_trans qc (createOrWrite_quiet hN)⟩
  rename_i nsObj wN hN
  have qN := World.quietSince_trans qc (createOrWrite_quiet hN)
  split
  · rename_i hS
    exact Or.inl ⟨⟨_, rfl⟩, World.quietSince_trans qN (createOrWrite_quiet hS)⟩
  rename_i sa wS hS
  have qS := World.quietSince_trans qN (createOrWrite_quiet hS)
  split
  · rename_i hB
    exact Or.inl ⟨⟨_, rfl⟩, World.quietSince_trans qS (createOrWrite_quiet hB)⟩
  rename_i crb wB hB
  have qB := World.quietSince_trans qS (createOrWrite_quiet hB)
  split
  · rename_i hT
    exact Or.inl ⟨⟨_, rfl⟩, World.quietSince_trans qB (createOrWrite_quiet hT)⟩
  rename_i ts0 wT hT
  have qT := World.quietSince_trans qB (createOrWrite_quiet hT)
  split
  · rename_i hG
    exact Or.inl ⟨⟨_, rfl⟩, World.quietSince_trans qT (Client.Get_quiet hG)⟩
  rename_i ts wG hG
  have qG := World.quietSince_trans qT (Client.Get_quiet hG)
  split
  · exact Or.inl ⟨⟨_, rfl⟩, qG⟩
  rename_i hfields
  have hkey : secretResource.key ts0 = tokenSecretKey :=
    (createOrWrite_ok secretResource_lawful (tokenSecretMutate_idem sa) hT).2.1
  obtain ⟨_, hread, rfl⟩ := Client.Get_ok hG
  rw [hkey] at hread
  have hts : ∃ ts1, secretResource.read wT.hosted tokenSecretKey = some ts1
      ∧ ts1.Data.at ServiceAccountRootCAKey ≠ none
      ∧ ts1.Data.at ServiceAccountTokenKey ≠ none :=
    ⟨ts, hread, fun hc => hfields (Or.inl hc), fun hc => hfields (Or.inr hc)⟩
  split
  · exact Or.inr hts
  split
  · exact Or.inr hts
  split
  · rename_i hM
    rw [createOrWrite_hosted_eq hM]
    exact Or.inr hts
  · rename_i hM
    rw [createOrWrite_hosted_eq hM]
    exact Or.inr hts

/-- C4: for every pass that leaves on the hosted cluster a token secret without its
`ca.crt` field or without its `token` field (the secret the pass re-fetched: the hosted
store is not written after the re-fetch), `ReconcileBootstrapKubeconfig` returns an error,
the management store is unchanged, and among the events of the pass there is no run of
`kubeconfigFromSecret` and no call on the management cluster other than `Get`. -/
theorem C4_token_not_issued (env : Env) (hcp : HostedControlPlane) (w : World)
    (h : ∀ ts, secretResource.read (ReconcileBootstrapKubeconfig env hcp w).2.hosted
        tokenSecretKey = some ts →
      ts.Data.at (lit "ca.crt") = none ∨ ts.Data.at (lit "token") = none) :
    (∃ err, (ReconcileBootstrapKubeconfig env hcp w).1 = .error err)
      ∧ (ReconcileBootstrapKubeconfig env hcp w).2.management = w.management
      ∧ ∃ evs, (ReconcileBootstrapKubeconfig env hcp w).2.events = w.events ++ evs
        ∧ ∀ e ∈ evs, e ≠ .assemble
          ∧ ∀ verb kind key, e = .call .management verb kind key → verb = .get := by
  rcases pass_fails_quietly_or_token_issued env hcp w with ⟨herr, hm, evs, hev, hq⟩ | hts
  · refine ⟨herr, hm, evs, hev, ?_⟩
    intro e he
    have hqe := hq e he
    refine ⟨?_, ?_⟩
    · rintro rfl
      simp [Event.quiet] at hqe
    · rintro verb kind key rfl
      simpa [Event.quiet] using hqe
  · obtain ⟨ts, hread, hca, htok⟩ := hts
    rcases h ts hread with hc | hc
    · exact absurd hc hca
    · exact absurd hc htok

/-- C4, at a concrete input: on a world whose token secret has CA data but no token yet,
the pass fails and the bootstrap kubeconfig secret is not created. -/
theorem C4_token_not_issued_witness :
    (∃ err, (ReconcileBootstrapKubeconfig exampleEnv exampleHCP exampleWorldNoToken).1
        = .error err)
      ∧ (ReconcileBootstrapKubeconfig exampleEnv exampleHCP exampleWorldNoToken).2.management
        = exampleWorldNoToken.management :=
  ⟨(C4_token_not_issued exampleEnv exampleHCP exampleWorldNoToken (by decide)).1,
   (C4_token_not_issued exampleEnv exampleHCP exampleWorldNoToken (by decide)).2.1⟩

/-! ## The successful pass -/

/-- A pass succeeds exactly when every step of it does: the admin kubeconfig secret is
fetched and parsed, the client is built, the four upserts on the hosted cluster succeed,
the re-fetched token secret has both fields, the host is not empty, the document is
serialized and the upsert on the management cluster succeeds. -/
theorem pass_ok_iff (env : Env) (hcp : HostedControlPlane) (w w1 : World) :
    ReconcileBootstrapKubeconfig env hcp w = (.ok (), w1) ↔
      hcp.Status.KubeConfig ≠ none ∧
      ∃ (adminSecret : Secret) (wa : World) (kubeconfig : Bytes) (config : ApiConfig)
        (clientConfig : RestConfig)
        (nsObj : Namespace) (wN : World) (sa : ServiceAccount) (wS : World)
        (crb : ClusterRoleBinding) (wB : World) (ts0 : Secret) (wT : World) (ts : Secret)
        (wG : World) (doc : List UInt8) (o : Secret),
        Client.Get env secretResource .management (adminKubeconfigKey hcp) w
            = (.ok adminSecret, wa)
          ∧ adminSecret.Data.index KubeconfigKey = some kubeconfig
          ∧ env.Load kubeconfig = .ok (some config)
          ∧ env.ClientConfig config = .ok clientConfig
          ∧ env.New clientConfig = none
          ∧ createOrWrite env namespaceResource .update .hosted
              (BootstrapMachineConfigNamespace machineConfigOperatorNamespace)
              (fun o => (o, none)) (wa.log .newClient) = (.ok nsObj, wN)
          ∧ createOrWrite env serviceAccountResource .update .hosted
              (BootstrapServiceAccount machineConfigOperatorNamespace)
              (fun o => (o, none)) wN = (.ok sa, wS)
          ∧ createOrWrite env clusterRoleBindingResource .update .hosted
              BootstrapClusterRoleBinding
              (fun rolebinding =>
                reconcileBootstrapClusterRoleBinding rolebinding BootstrapClusterRole sa) wS
              = (.ok crb, wB)
          ∧ createOrWrite env secretResource .patch .hosted
              (BootstrapServicAccountTokenSecret machineConfigOperatorNamespace)
              (tokenSecretMutate sa) wB = (.ok ts0, wT)
          ∧ Client.Get env secretResource .hosted (secretResource.key ts0) wT = (.ok ts, wG)
          ∧ ts.Data.at ServiceAccountRootCAKey ≠ none
          ∧ ts.Data.at ServiceAccountTokenKey ≠ none
          ∧ hcp.Status.ControlPlaneEndpoint.Host ≠ lit ""
          ∧ env.Marshal (kubeconfigFromSecret.kubeconfig ts
              (ReconcileBootstrapKubeconfig.apiServerURL hcp.Status.ControlPlaneEndpoint))
              = .ok doc
          ∧ createOrWrite env secretResource .update .management
              (BootstrapKubeconfigSecret hcp.Namespace)
              (fun bootstrapKubeconfigSecret =>
                reconcileBootstrapKubeconfigSecret bootstrapKubeconfigSecret (some doc)
                  KubeconfigKey)
              (wG.log .assemble) = (.ok o, w1) := by
  constructor
  · intro h
    unfold ReconcileBootstrapKubeconfig at h
    split at h
    · simp at h
    rename_i hkc
    dsimp only at h
    split at h
    · simp at h
    rename_i adminSecret wa hget
    split at h
    · simp at h
    · simp at h
    rename_i config hload
    split at h
    · simp at h
    rename_i clientConfig hcc
    split at h
    · simp at h
    rename_i hnew
    split at h
    · simp at h
    rename_i nsObj wN hN
    split at h
    · simp at h
    rename_i sa wS hS
    split at h
    · simp at h
    rename_i crb wB hB
    split at h
    · simp at h
    rename_i ts0 wT hT
    split at h
    · simp at h
    rename_i ts wG hG
    split at h
    · simp at h
    rename_i hfields
    split at h
    · simp at h
    rename_i hhost
    split at h
    · simp at h
    rename_i kcData x hkfs
    split at h
    · simp at h
    rename_i o wM hM
    simp only [Prod.mk.injEq, true_and] at h
    subst h
    obtain ⟨doc, hdoc, rfl⟩ := kubeconfigFromSecret_ok hkfs
    have hload1 : ∃ kubeconfig, adminSecret.Data.index KubeconfigKey = some kubeconfig
        ∧ env.Load kubeconfig = .ok (some config) := by
      cases hidx : adminSecret.Data.index KubeconfigKey with
      | none => rw [hidx] at hload; simp at hload
      | some kubeconfig => rw [hidx] at hload; exact ⟨kubeconfig, rfl, hload⟩
    obtain ⟨kubeconfig, hidx, hload2⟩ := hload1
    exact ⟨hkc, adminSecret, wa, kubeconfig, config, clientConfig, nsObj, wN, sa, wS, crb, wB,
      ts0, wT, ts, wG, doc, o, hget, hidx, hload2, hcc, hnew, hN, hS, hB, hT, hG,
      fun hc => hfields (Or.inl hc), fun hc => hfields (Or.inr hc), hhost, hdoc, hM⟩
  · rintro ⟨hkc, adminSecret, wa, kubeconfig, config, clientConfig, nsObj, wN, sa, wS, crb,
      wB, ts0, wT, ts, wG, doc, o, hget, hidx, hload, hcc, hnew, hN, hS, hB, hT, hG, hca, htok,
      hhost, hdoc, hM⟩
    have hget1 : Client.Get env secretResource .management
        (secretResource.key
          { Name := lit "service-network-admin-kubeconfig", Namespace := hcp.Namespace })
        w = (.ok adminSecret, wa) := hget
    have hkfs : kubeconfigFromSecret env.Marshal ts
        (ReconcileBootstrapKubeconfig.apiServerURL hcp.Status.ControlPlaneEndpoint)
        = (some doc, ts.Data.at ServiceAccountRootCAKey, none) := by
      unfold kubeconfigFromSecret
      dsimp only
      rw [hdoc]
    unfold ReconcileBootstrapKubeconfig
    rw [if_neg hkc]
    simp only [hget1, hload, hcc, hnew, CreateOrUpdate, CreateOrPatch, hN, hS, hB, hT, hG,
      hkfs, hM, hca, htok, hhost, or_self, if_false]
    rw [hidx]
    dsimp only
    rw [hload]
    dsimp only
    rw [hcc]
    dsimp only
    rw [hnew]

theorem pass_ok_of_fst {env : Env} {hcp : HostedControlPlane} {w : World}
    (h : (ReconcileBootstrapKubeconfig env hcp w).1 = .ok ()) :
    ReconcileBootstrapKubeconfig env hcp w
      = (.ok (), (ReconcileBootstrapKubeconfig env hcp w).2) := by
  rw [← h]

/-- C7: after every successful pass the host is not empty, and the bootstrap kubeconfig
secret on the management cluster holds under `kubeconfig` the bytes the serializer gives
for the document with one cluster entry `local` whose server is `https://`, the host, `:`
and the port in decimal and whose CA data is the `ca.crt` field of the token secret on the
hosted cluster, one credential `kubelet` whose token is the `token` field of that secret,
one context `kubelet` and current context `kubelet`. In particular host `api.example.com`,
port 6443, CA `CAFE` and token `tok-123` give server `https://api.example.com:6443`, CA
`CAFE` and token `tok-123`. -/
theorem C7_bundle_written (env : Env) (hcp : HostedControlPlane) (w : World)
    (h : (ReconcileBootstrapKubeconfig env hcp w).1 = .ok ()) :
    hcp.Status.ControlPlaneEndpoint.Host ≠ lit ""
      ∧ (∃ ts doc stored,
          secretResource.read (ReconcileBootstrapKubeconfig env hcp w).2.hosted tokenSecretKey
              = some ts
            ∧ env.Marshal
                { Clusters :=
                    [{ Name := lit "local",
                       Cluster :=
                         { Server := lit "https://" ++ hcp.Status.ControlPlaneEndpoint.Host
                             ++ lit ":" ++ fmtInt hcp.Status.ControlPlaneEndpoint.Port,
                           CertificateAuthorityData := ts.Data.at (lit "ca.crt") } }],
                  AuthInfos :=
                    [{ Name := lit "kubelet",
                       AuthInfo := { Token := stringOfBytes (ts.Data.at (lit "token")) } }],
                  Contexts :=
                    [{ Name := lit "kubelet",
                       Context := { Cluster := lit "local", AuthInfo := lit "kubelet" } }],
                  CurrentContext := lit "kubelet" } = .ok doc
            ∧ secretResource.read (ReconcileBootstrapKubeconfig env hcp w).2.management
                (bootstrapKubeconfigKey hcp) = some stored
            ∧ (stored.Data.index (lit "kubeconfig")).map Bytes.content = some doc)
      ∧ kubeconfigFromSecret.kubeconfig exampleTokenSecret
          (ReconcileBootstrapKubeconfig.apiServerURL
            { Host := lit "api.example.com", Port := 6443 })
        = { Clusters :=
              [{ Name := lit "local",
                 Cluster := { Server := lit "https://api.example.com:6443",
                              CertificateAuthorityData := some (lit "CAFE") } }],
            AuthInfos := [{ Name := lit "kubelet", AuthInfo := { Token := lit "tok-123" } }],
            Contexts :=
              [{ Name := lit "kubelet",
                 Context := { Cluster := lit "local", AuthInfo := lit "kubelet" } }],
            CurrentContext := lit "kubelet" } := by
  obtain ⟨_, adminSecret, wa, kubeconfig, config, clientConfig, nsObj, wN, sa, wS, crb, wB,
    ts0, wT, ts, wG, doc, o, _, _, _, _, _, _, _, _, hT, hG, _, _, hhost, hdoc, hM⟩ :=
    (pass_ok_iff env hcp w _).mp (pass_ok_of_fst h)
  refine ⟨hhost, ?_, by decide⟩
  have hkey : secretResource.key ts0 = tokenSecretKey :=
    (createOrWrite_ok secretResource_lawful (tokenSecretMutate_idem sa) hT).2.1
  obtain ⟨_, hread, rfl⟩ := Client.Get_ok hG
  rw [hkey] at hread
  obtain ⟨_, _, ⟨x, hx, hfx, hse⟩, _, hhosted⟩ :=
    createOrWrite_ok_management secretResource_lawful
      (reconcileBootstrapKubeconfigSecret_idem (some doc) KubeconfigKey) hM
  refine ⟨ts, doc, x, ?_, hdoc, hx, ?_⟩
  · rw [hhosted]
    simpa using hread
  · have ho : o.Data.index (lit "kubeconfig") = some (some doc) := by
      have h1 := reconcileBootstrapKubeconfigSecret_data x (some doc) KubeconfigKey
        (lit "kubeconfig")
      rw [hfx] at h1
      have hk : (if KubeconfigKey = lit "" then lit "kubeconfig" else KubeconfigKey)
          = lit "kubeconfig" := by decide
      rw [h1, hk, if_pos rfl]
    have hmap : mapSemEq bytesSemEq x.Data o.Data = true := by
      have h2 : Secret.semEq x o = true := hse
      simp only [Secret.semEq, Bool.and_eq_true] at h2
      exact h2.1.2
    obtain ⟨v, hv, hveq⟩ := mapSemEq_index bytesSemEq x.Data o.Data hmap _ _ ho
    rw [hv]
    simp only [bytesSemEq, decide_eq_true_eq] at hveq
    exact congrArg some hveq

/-- C7, at a concrete input: the pass on `exampleWorld` (host `api.example.com`, port 6443,
CA `CAFE`, token `tok-123`) succeeds, its host is not empty, and the bootstrap kubeconfig
secret then holds under `kubeconfig` what the serializer of `exampleEnv` gives for server
`https://api.example.com:6443` and CA `CAFE`. -/
theorem C7_bundle_written_witness :
    (ReconcileBootstrapKubeconfig exampleEnv exampleHCP exampleWorld).1 = .ok ()
      ∧ exampleHCP.Status.ControlPlaneEndpoint.Host ≠ lit ""
      ∧ (secretResource.read
          (ReconcileBootstrapKubeconfig exampleEnv exampleHCP exampleWorld).2.management
          (bootstrapKubeconfigKey exampleHCP)).map (fun s => s.Data.index (lit "kubeconfig"))
        = some (some (some (lit "https://api.example.com:6443CAFE"))) :=
  ⟨by decide, (C7_bundle_written exampleEnv exampleHCP exampleWorld (by decide)).1,
    by decide⟩

theorem adminKubeconfigKey_ne_bootstrapKubeconfigKey (hcp : HostedControlPlane) :
    adminKubeconfigKey hcp ≠ bootstrapKubeconfigKey hcp := by
  intro h
  have h1 : lit "service-network-admin-kubeconfig" = lit "bootstrap-kubeconfig" :=
    congrArg ObjectKey.Name h
  revert h1
  decide

/-- C9: when a pass succeeds, a second pass run on the world the first one left also
succeeds and writes nothing: both stores are exactly as the first pass left them. So the
bootstrap kubeconfig secret, which the first pass left on the management cluster, keeps its
data and labels, and the cluster role binding, which the first pass left on the hosted
cluster, keeps its RoleRef and subjects. -/
theorem C9_second_pass_changes_nothing (env : Env) (hcp : HostedControlPlane) (w w1 : World)
    (h : ReconcileBootstrapKubeconfig env hcp w = (.ok (), w1)) :
    ∃ w2, ReconcileBootstrapKubeconfig env hcp w1 = (.ok (), w2)
      ∧ w2.management = w1.management ∧ w2.hosted = w1.hosted
      ∧ (∃ stored, secretResource.read w1.management (bootstrapKubeconfigKey hcp) = some stored
          ∧ secretResource.read w2.management (bootstrapKubeconfigKey hcp) = some stored)
      ∧ ∃ binding, clusterRoleBindingResource.read w1.hosted clusterRoleBindingKey
            = some binding
          ∧ clusterRoleBindingResource.read w2.hosted clusterRoleBindingKey = some binding := by
  obtain ⟨hkc, adminSecret, wa, kubeconfig, config, clientConfig, nsObj, wN, sa, wS, crb, wB,
    ts0, wT, ts, wG, doc, o, hget, hidx, hload, hcc, hnew, hN, hS, hB, hT, hG, hca, htok,
    hhost, hdoc, hM⟩ := (pass_ok_iff env hcp w w1).mp h
  -- what the first pass established, step by step
  obtain ⟨hdA, hrA, rfl⟩ := Client.Get_ok hget
  obtain ⟨hdN, hkN, ⟨xN, hxN, hfN, hsN⟩, hstN, hmN⟩ :=
    createOrWrite_ok_hosted namespaceResource_lawful (fun _ _ _ => rfl) hN
  obtain ⟨hdS, hkS, ⟨xS, hxS, hfS, hsS⟩, hstS, hmS⟩ :=
    createOrWrite_ok_hosted serviceAccountResource_lawful (fun _ _ _ => rfl) hS
  obtain ⟨hdB, hkB, ⟨xB, hxB, hfB, hsB⟩, hstB, hmB⟩ :=
    createOrWrite_ok_hosted clusterRoleBindingResource_lawful
      (reconcileBootstrapClusterRoleBinding_idem BootstrapClusterRole sa) hB
  obtain ⟨hdT, hkT, ⟨xT, hxT, hfT, hsT⟩, hstT, hmT⟩ :=
    createOrWrite_ok_hosted secretResource_lawful (tokenSecretMutate_idem sa) hT
  obtain ⟨hdG, hrG, rfl⟩ := Client.Get_ok hG
  obtain ⟨hdM, hkM, ⟨xM, hxM, hfM, hsM⟩, hstM, hhM⟩ :=
    createOrWrite_ok_management secretResource_lawful
      (reconcileBootstrapKubeconfigSecret_idem (some doc) KubeconfigKey) hM
  simp only [World.log_management, World.log_hosted, World.store_management,
    World.store_hosted] at hrA hmN hmS hmB hmT hrG hstN hstS hstB hstT hstM hhM
  -- what the stores hold when the first pass ends
  have rT : secretResource.read w1.hosted (secretResource.key ts0) = some ts := by
    rw [hhM]; exact hrG
  have rX : secretResource.read w1.hosted
      (secretResource.key (BootstrapServicAccountTokenSecret machineConfigOperatorNamespace))
      = some xT := by
    rw [hhM]; exact hxT
  have rB : clusterRoleBindingResource.read w1.hosted
      (clusterRoleBindingResource.key BootstrapClusterRoleBinding) = some xB := by
    rw [hhM, ← hxB]
    rcases hstT with e | e <;> rw [e]
    rfl
  have rS : serviceAccountResource.read w1.hosted
      (serviceAccountResource.key (BootstrapServiceAccount machineConfigOperatorNamespace))
      = some xS := by
    rw [hhM, ← hxS]
    have e1 : ∀ k, serviceAccountResource.read wT.hosted k
        = serviceAccountResource.read wB.hosted k := by
      intro k; rcases hstT with e | e <;> rw [e]; rfl
    have e2 : ∀ k, serviceAccountResource.read wB.hosted k
        = serviceAccountResource.read wS.hosted k := by
      intro k; rcases hstB with e | e <;> rw [e]; rfl
    rw [e1, e2]
  have rN : namespaceResource.read w1.hosted
      (namespaceResource.key (BootstrapMachineConfigNamespace machineConfigOperatorNamespace))
      = some xN := by
    rw [hhM, ← hxN]
    have e1 : ∀ k, namespaceResource.read wT.hosted k = namespaceResource.read wB.hosted k := by
      intro k; rcases hstT with e | e <;> rw [e]; rfl
    have e2 : ∀ k, namespaceResource.read wB.hosted k = namespaceResource.read wS.hosted k := by
      intro k; rcases hstB with e | e <;> rw [e]; rfl
    have e3 : ∀ k, namespaceResource.read wS.hosted k = namespaceResource.read wN.hosted k := by
      intro k; rcases hstS with e | e <;> rw [e]; rfl
    rw [e1, e2, e3]
  have rA : secretResource.read w1.management (adminKubeconfigKey hcp) = some adminSecret := by
    have hm0 : wT.management = w.management := by rw [hmT, hmB, hmS, hmN]
    rcases hstM with e | e
    · rw [e, hm0]; exact hrA
    · have hne : adminKubeconfigKey hcp
          ≠ secretResource.key (BootstrapKubeconfigSecret hcp.Namespace) :=
        adminKubeconfigKey_ne_bootstrapKubeconfigKey hcp
      rw [e, secretResource_lawful.read_write, hkM, if_neg hne, hm0]
      exact hrA
  -- the second pass
  refine ⟨_, (pass_ok_iff env hcp w1 _).mpr ⟨hkc, adminSecret, _, kubeconfig, config,
    clientConfig, nsObj, _, sa, _, crb, _, ts0, _, ts, _, doc, o,
    Client.Get_of_read hdA rA, hidx, hload, hcc, hnew,
    createOrWrite_settled hdN (by simpa using rN) hfN hkN hsN,
    createOrWrite_settled hdS (by simpa using rS) hfS hkS hsS,
    createOrWrite_settled hdB (by simpa using rB) hfB hkB hsB,
    createOrWrite_settled hdT (by simpa using rX) hfT hkT hsT,
    Client.Get_of_read hdG (by simpa using rT), hca, htok, hhost, hdoc,
    createOrWrite_settled hdM (by simpa using hxM) hfM hkM hsM⟩, by simp, by simp,
    ⟨xM, hxM, by simpa using hxM⟩, ⟨xB, rB, by simpa using rB⟩⟩

/-- C9, at a concrete input: the pass on `exampleWorld` succeeds, and the second pass on
the world it leaves succeeds and leaves both stores as they are. -/
theorem C9_second_pass_changes_nothing_witness :
    ∃ w2, ReconcileBootstrapKubeconfig exampleEnv exampleHCP
          (ReconcileBootstrapKubeconfig exampleEnv exampleHCP exampleWorld).2 = (.ok (), w2)
      ∧ w2.management
          = (ReconcileBootstrapKubeconfig exampleEnv exampleHCP exampleWorld).2.management
      ∧ w2.hosted = (ReconcileBootstrapKubeconfig exampleEnv exampleHCP exampleWorld).2.hosted :=
  let ⟨w2, h1, h2, h3, _⟩ := C9_second_pass_changes_nothing exampleEnv exampleHCP exampleWorld
    (ReconcileBootstrapKubeconfig exampleEnv exampleHCP exampleWorld).2
    (Prod.ext (by decide) rfl)
  ⟨w2, h1, h2, h3⟩

end NodeBootstrapper
